import Mathlib

/-!
Verification of the SFTP_WorkdayParser XML-to-CSV flattening scripts.

The five report scripts (`xml_parser_costing_allocations_daily.py`,
`xml_parser_position_master.py`, `xml_parser_position_compensation.py`,
`xml_parser_worktag_grant.py`, `xml_parser_worktag_program.py`) are embedded
shallowly below.  Conventions used throughout:

* An `ElementTree` element is a tag (stored fully qualified, as Python's
  ElementTree stores it: the namespace URI between braces followed by the
  local name), an attribute list (keys fully qualified), optional text,
  and a child list.
* Python `None` is `Option.none`; a Python string is `some s` where a
  value of type "str or None" can occur, and a plain `String` where the
  source always produces a string.
* Python dicts keyed by column name are embedded as functions
  `String → Option v` (`none` = key absent); `dset` is `d[k] = v`.
* Raising `FileNotFoundError`/`ET.ParseError` in `ET.parse` is modelled by
  passing `none` for the parsed root; the `try/except AttributeError`
  blocks of the helper functions are modelled by the corresponding
  `Option` case splits.
* `os.path.getmtime`/`datetime.strftime` and `json.dumps` are external
  library calls; they enter the embedding as parameters (`Option Nat` for
  the retrievable timestamp, an uninterpreted formatting function).
* Each script's `__main__` block is modelled as a function from the
  pre-state (input-file existence, parse outcome, previously existing
  output-file content) to the resulting output-file content, where
  `none` means no output file exists after the run.
-/

/-- An ElementTree XML element: qualified tag, attributes (qualified keys),
optional text, children. -/
inductive Xml where
  | elem (tag : String) (attrs : List (String × String)) (text : Option String) (children : List Xml)

/-- The element's qualified tag. -/
def Xml.tag : Xml → String
  | .elem t _ _ _ => t

/-- The element's attribute list. -/
def Xml.attrs : Xml → List (String × String)
  | .elem _ a _ _ => a

/-- `element.text` (possibly `None`). -/
def Xml.text : Xml → Option String
  | .elem _ _ x _ => x

/-- The element's direct children. -/
def Xml.children : Xml → List Xml
  | .elem _ _ _ cs => cs

/-- `element.get(key)`: attribute lookup, `None` when absent. -/
def Xml.get (el : Xml) (key : String) : Option String :=
  List.lookup key el.attrs

/-- Python's f-string `f"{'{'}{ns}{'}'}{local}"` pattern: the qualified name
ElementTree uses for a namespaced tag or attribute. -/
def qname (ns localName : String) : String :=
  "\x7b" ++ ns ++ "\x7d" ++ localName

/-- `element.find('wd:local', ns)`: first direct child with the qualified tag. -/
def findChildNS (ns : String) (el : Xml) (localName : String) : Option Xml :=
  el.children.find? (fun c => c.tag == qname ns localName)

/-- `element.findall('wd:local', ns)`: all direct children with the qualified
tag, in document order. -/
def findAllNS (ns : String) (el : Xml) (localName : String) : List Xml :=
  el.children.filter (fun c => c.tag == qname ns localName)

/-- The relative paths the scripts pass to their helpers: `'.'`,
`'wd:Local'`, or `'wd:A/wd:B'`. -/
inductive RelPath where
  | self
  | child (localName : String)
  | chain (a b : String)

/-- `element.find(path, ns)` for the path forms above.  For `'wd:A/wd:B'`,
ElementTree yields, for each `A` child in document order, that child's `B`
children in document order, and `find` returns the first such `B`: the
first `B` child of the first `A` child that has one (`A` children without a
`B` child are skipped, they do not make the lookup fail). -/
def findPath (ns : String) (el : Xml) : RelPath → Option Xml
  | .self => some el
  | .child l => findChildNS ns el l
  | .chain a b => (findAllNS ns el a).findSome? (fun m => findChildNS ns m b)

/-- `element.findall(".//wd:ID[@wd:type='tv']")` restricted to its first
result: depth-first (document-order) search of a node list for a descendant
`ID` element whose qualified `type` attribute equals `tv`. -/
def dfsTypedId (ns tv : String) : List Xml → Option Xml
  | [] => none
  | Xml.elem t a x cs :: rest =>
    if t == qname ns "ID" && List.lookup (qname ns "type") a == some tv then
      some (Xml.elem t a x cs)
    else
      match dfsTypedId ns tv cs with
      | some r => some r
      | none => dfsTypedId ns tv rest

/-- `d[k] = v` on a string-keyed dict embedded as a lookup function. -/
def dset {v : Type} (m : String → Option v) (k : String) (x : v) : String → Option v :=
  fun q => if q = k then some x else m q

theorem dset_same {v : Type} (m : String → Option v) (k : String) (x : v) :
    dset m k x k = some x := by
  simp [dset]

theorem dset_other {v : Type} (m : String → Option v) (k : String) (x : v)
    (q : String) (h : q ≠ k) : dset m k x q = m q := by
  simp [dset, h]

/-- A row dict whose values are plain Python strings. -/
abbrev StrRow := String → Option String

namespace WorktagGrant

/-- `NAMESPACE['wd']` of `xml_parser_worktag_grant.py`. -/
def NS : String := "urn:com.workday.report/intf-s111-c04"

/-- `get_text` of `xml_parser_worktag_grant.py` (lines 38-44): `None`
element or missing node or `None` text all give the default. -/
def get_text (element : Option Xml) (path : RelPath) (defaultVal : String) : String :=
  match element with
  | none => defaultVal
  | some el =>
    match findPath NS el path with
    | none => defaultVal
    | some node => node.text.getD defaultVal

/-- `get_attribute` of `xml_parser_worktag_grant.py` (lines 47-56). -/
def get_attribute (element : Option Xml) (path : RelPath) (attributeName : String)
    (defaultVal : String) : String :=
  match element with
  | none => defaultVal
  | some el =>
    let targetElement := match path with
      | RelPath.self => some el
      | p => findPath NS el p
    match targetElement with
    | none => defaultVal
    | some target =>
      match target.get (qname NS attributeName) with
      | none => defaultVal
      | some attrValue => attrValue

/-- `get_typed_id_text` of `xml_parser_worktag_grant.py` (lines 59-69):
returns the text of the first direct `wd:ID` child of the resolved parent
whose qualified `type` attribute equals `idTypeValue`; default when the
element is `None`, the parent is missing, no child matches, or the matching
child's text is `None`. -/
def get_typed_id_text (element : Option Xml) (pathToParentOfIds : RelPath)
    (idTypeValue : String) (defaultVal : String) : String :=
  match element with
  | none => defaultVal
  | some el =>
    match findPath NS el pathToParentOfIds with
    | none => defaultVal
    | some parentOfIds =>
      match (findAllNS NS parentOfIds "ID").find?
          (fun idElem => idElem.get (qname NS "type") == some idTypeValue) with
      | none => defaultVal
      | some idElem => idElem.text.getD defaultVal

/-- The `headers` list of `xml_parser_worktag_grant.py` (lines 72-96). -/
def headers : List String := [
  "Code_Description_Descriptor", "Code_Description_WID", "Code_Description_Grant_ID",
  "Code",
  "Parent",
  "Grant_Description",
  "Grant_Cost_Center_Descriptor", "Grant_Cost_Center_WID", "Grant_Cost_Center_Organization_Reference_ID", "Grant_Cost_Center_Cost_Center_Reference_ID",
  "Included_in_Grant_Hierarchies_Descriptor", "Included_in_Grant_Hierarchies_WID", "Included_in_Grant_Hierarchies_Grant_Hierarchy_ID",
  "Institution_Hierarchy_Node_Grants_Descriptor", "Institution_Hierarchy_Node_Grants_WID", "Institution_Hierarchy_Node_Grants_Grant_Hierarchy_ID",
  "Unit_Descriptor", "Unit_WID", "Unit_Organization_Reference_ID", "Unit_Custom_Organization_Reference_ID",
  "Worktag_Fund_Descriptor", "Worktag_Fund_WID", "Worktag_Fund_ID",
  "Worktag_Function_Descriptor", "Worktag_Function_WID", "Worktag_Function_Organization_Reference_ID", "Worktag_Function_Custom_Organization_Reference_ID",
  "Worktag_Unit_Descriptor", "Worktag_Unit_WID", "Worktag_Unit_Organization_Reference_ID", "Worktag_Unit_Custom_Organization_Reference_ID",
  "Worktag_Cost_Center_Descriptor", "Worktag_Cost_Center_WID", "Worktag_Cost_Center_Organization_Reference_ID", "Worktag_Cost_Center_Cost_Center_Reference_ID",
  "Grant_Manager_Descriptor", "Grant_Manager_WID", "Grant_Manager_Employee_ID",
  "Grant_Accountant_Descriptor", "Grant_Accountant_WID", "Grant_Accountant_Employee_ID",
  "Grant_Owner_Descriptor", "Grant_Owner_WID", "Grant_Owner_Employee_ID",
  "Has_Program", "Has_Grant_Cost_Center", "Has_Program_Cost_Center",
  "Company_Descriptor", "Company_WID", "Company_Organization_Reference_ID", "Company_Company_Reference_ID",
  "Owner_Descriptor", "Owner_WID", "Owner_Employee_ID",
  "Inactive",
  "Fund_Code",
  "Function_Code",
  "Unit_Code",
  "Updated_Date"]

/-- Lines 111-112: `for header in headers: row_data[header] = ''`. -/
def initRow : StrRow :=
  headers.foldl (fun m h => dset m h "") (fun _ => none)

/-- The body of the `for worktag_el in report_entry.findall('wd:Worktags', ...)`
loop (lines 153-174): route one `Worktags` child into the Fund / Function /
Unit / Cost Center column group selected by its `Descriptor` prefix. -/
def worktagStep (rowData : StrRow) (worktagEl : Xml) : StrRow :=
  let descriptor := get_attribute (some worktagEl) RelPath.self "Descriptor" ""
  if descriptor ≠ "" then
    if descriptor.startsWith "Fund:" then
      dset (dset (dset rowData
        "Worktag_Fund_Descriptor" descriptor)
        "Worktag_Fund_WID" (get_typed_id_text (some worktagEl) RelPath.self "WID" ""))
        "Worktag_Fund_ID" (get_typed_id_text (some worktagEl) RelPath.self "Fund_ID" "")
    else if descriptor.startsWith "Function:" then
      dset (dset (dset (dset rowData
        "Worktag_Function_Descriptor" descriptor)
        "Worktag_Function_WID" (get_typed_id_text (some worktagEl) RelPath.self "WID" ""))
        "Worktag_Function_Organization_Reference_ID" (get_typed_id_text (some worktagEl) RelPath.self "Organization_Reference_ID" ""))
        "Worktag_Function_Custom_Organization_Reference_ID" (get_typed_id_text (some worktagEl) RelPath.self "Custom_Organization_Reference_ID" "")
    else if descriptor.startsWith "Unit:" then
      dset (dset (dset (dset rowData
        "Worktag_Unit_Descriptor" descriptor)
        "Worktag_Unit_WID" (get_typed_id_text (some worktagEl) RelPath.self "WID" ""))
        "Worktag_Unit_Organization_Reference_ID" (get_typed_id_text (some worktagEl) RelPath.self "Organization_Reference_ID" ""))
        "Worktag_Unit_Custom_Organization_Reference_ID" (get_typed_id_text (some worktagEl) RelPath.self "Custom_Organization_Reference_ID" "")
    else if descriptor.startsWith "Cost Center:" then
      dset (dset (dset (dset rowData
        "Worktag_Cost_Center_Descriptor" descriptor)
        "Worktag_Cost_Center_WID" (get_typed_id_text (some worktagEl) RelPath.self "WID" ""))
        "Worktag_Cost_Center_Organization_Reference_ID" (get_typed_id_text (some worktagEl) RelPath.self "Organization_Reference_ID" ""))
        "Worktag_Cost_Center_Cost_Center_Reference_ID" (get_typed_id_text (some worktagEl) RelPath.self "Cost_Center_Reference_ID" "")
    else rowData
  else rowData

/-- The whole `Worktags` loop of lines 153-174. -/
def processWorktags (rowData : StrRow) (worktags : List Xml) : StrRow :=
  worktags.foldl worktagStep rowData

/-- One iteration of the `Report_Entry` loop of `parse_xml_data`
(lines 107-216): build the flat row dict for one entry. -/
def buildRow (reportEntry : Xml) (fileModificationDate : String) : StrRow :=
  let r0 := dset initRow "Updated_Date" fileModificationDate
  let cdEl := findChildNS NS reportEntry "Code_Description"
  let r1 := dset (dset (dset r0
    "Code_Description_Descriptor" (get_attribute cdEl RelPath.self "Descriptor" ""))
    "Code_Description_WID" (get_typed_id_text cdEl RelPath.self "WID" ""))
    "Code_Description_Grant_ID" (get_typed_id_text cdEl RelPath.self "Grant_ID" "")
  let r2 := dset (dset (dset r1
    "Code" (get_text (some reportEntry) (RelPath.child "Code") ""))
    "Parent" (get_text (some reportEntry) (RelPath.child "Parent") ""))
    "Grant_Description" (get_text (some reportEntry) (RelPath.child "Grant_Description") "")
  let gccEl := findChildNS NS reportEntry "Grant_Cost_Center"
  let r3 := dset (dset (dset (dset r2
    "Grant_Cost_Center_Descriptor" (get_attribute gccEl RelPath.self "Descriptor" ""))
    "Grant_Cost_Center_WID" (get_typed_id_text gccEl RelPath.self "WID" ""))
    "Grant_Cost_Center_Organization_Reference_ID" (get_typed_id_text gccEl RelPath.self "Organization_Reference_ID" ""))
    "Grant_Cost_Center_Cost_Center_Reference_ID" (get_typed_id_text gccEl RelPath.self "Cost_Center_Reference_ID" "")
  let iighEl := findChildNS NS reportEntry "Included_in_Grant_Hierarchies"
  let r4 := dset (dset (dset r3
    "Included_in_Grant_Hierarchies_Descriptor" (get_attribute iighEl RelPath.self "Descriptor" ""))
    "Included_in_Grant_Hierarchies_WID" (get_typed_id_text iighEl RelPath.self "WID" ""))
    "Included_in_Grant_Hierarchies_Grant_Hierarchy_ID" (get_typed_id_text iighEl RelPath.self "Grant_Hierarchy_ID" "")
  let ihngEl := findChildNS NS reportEntry "Institution_Hierarchy_Node_-_Grants"
  let r5 := dset (dset (dset r4
    "Institution_Hierarchy_Node_Grants_Descriptor" (get_attribute ihngEl RelPath.self "Descriptor" ""))
    "Institution_Hierarchy_Node_Grants_WID" (get_typed_id_text ihngEl RelPath.self "WID" ""))
    "Institution_Hierarchy_Node_Grants_Grant_Hierarchy_ID" (get_typed_id_text ihngEl RelPath.self "Grant_Hierarchy_ID" "")
  let unitEl := findChildNS NS reportEntry "Unit"
  let r6 := dset (dset (dset (dset r5
    "Unit_Descriptor" (get_attribute unitEl RelPath.self "Descriptor" ""))
    "Unit_WID" (get_typed_id_text unitEl RelPath.self "WID" ""))
    "Unit_Organization_Reference_ID" (get_typed_id_text unitEl RelPath.self "Organization_Reference_ID" ""))
    "Unit_Custom_Organization_Reference_ID" (get_typed_id_text unitEl RelPath.self "Custom_Organization_Reference_ID" "")
  let r7 := processWorktags r6 (findAllNS NS reportEntry "Worktags")
  let gmEl := findChildNS NS reportEntry "Grant_Manager"
  let r8 := dset (dset (dset r7
    "Grant_Manager_Descriptor" (get_attribute gmEl RelPath.self "Descriptor" ""))
    "Grant_Manager_WID" (get_typed_id_text gmEl RelPath.self "WID" ""))
    "Grant_Manager_Employee_ID" (get_typed_id_text gmEl RelPath.self "Employee_ID" "")
  let gaEl := findChildNS NS reportEntry "Grant_Accountant"
  let r9 := dset (dset (dset r8
    "Grant_Accountant_Descriptor" (get_attribute gaEl RelPath.self "Descriptor" ""))
    "Grant_Accountant_WID" (get_typed_id_text gaEl RelPath.self "WID" ""))
    "Grant_Accountant_Employee_ID" (get_typed_id_text gaEl RelPath.self "Employee_ID" "")
  let goEl := findChildNS NS reportEntry "Grant_Owner"
  let r10 := dset (dset (dset r9
    "Grant_Owner_Descriptor" (get_attribute goEl RelPath.self "Descriptor" ""))
    "Grant_Owner_WID" (get_typed_id_text goEl RelPath.self "WID" ""))
    "Grant_Owner_Employee_ID" (get_typed_id_text goEl RelPath.self "Employee_ID" "")
  let r11 := dset (dset (dset r10
    "Has_Program" (get_text (some reportEntry) (RelPath.child "Has_Program") ""))
    "Has_Grant_Cost_Center" (get_text (some reportEntry) (RelPath.child "Has_Grant_Cost_Center") ""))
    "Has_Program_Cost_Center" (get_text (some reportEntry) (RelPath.child "Has_Program_Cost_Center") "")
  let compEl := findChildNS NS reportEntry "Company"
  let r12 := dset (dset (dset (dset r11
    "Company_Descriptor" (get_attribute compEl RelPath.self "Descriptor" ""))
    "Company_WID" (get_typed_id_text compEl RelPath.self "WID" ""))
    "Company_Organization_Reference_ID" (get_typed_id_text compEl RelPath.self "Organization_Reference_ID" ""))
    "Company_Company_Reference_ID" (get_typed_id_text compEl RelPath.self "Company_Reference_ID" "")
  let ownerEl := findChildNS NS reportEntry "Owner"
  let r13 := dset (dset (dset r12
    "Owner_Descriptor" (get_attribute ownerEl RelPath.self "Descriptor" ""))
    "Owner_WID" (get_typed_id_text ownerEl RelPath.self "WID" ""))
    "Owner_Employee_ID" (get_typed_id_text ownerEl RelPath.self "Employee_ID" "")
  dset (dset (dset (dset r13
    "Inactive" (get_text (some reportEntry) (RelPath.child "Inactive") ""))
    "Fund_Code" (get_text (some reportEntry) (RelPath.chain "Fund_group" "Fund_Code") ""))
    "Function_Code" (get_text (some reportEntry) (RelPath.chain "Function_group" "Function_Code") ""))
    "Unit_Code" (get_text (some reportEntry) (RelPath.chain "Unit_group" "Unit_Code") "")

/-- `parse_xml_data` (lines 98-233): `none` for the root models `ET.parse`
raising (`FileNotFoundError` / `ET.ParseError`), in which case the Python
function returns `None` (after writing a header-only CSV, reflected in
`main` below). -/
def parse_xml_data (xmlOutcome : Option Xml) (fileModificationDate : String) :
    Option (List StrRow) :=
  match xmlOutcome with
  | none => none
  | some root =>
    some ((findAllNS NS root "Report_Entry").map
      (fun entry => buildRow entry fileModificationDate))

/-- Line 265: `row_to_write = {header: data_row.get(header, '') for header in headers}`,
then `DictWriter.writerow` emits the values in `headers` order. -/
def serializeRow (dataRow : StrRow) : List String :=
  headers.map (fun h => (dataRow h).getD "")

/-- The `__main__` block (lines 236-277) plus the header-only writes inside
`parse_xml_data`'s exception handlers: resulting output-file content, given
whether the input file exists, the parse outcome, and the output file's
previous content (`none` = no previous file). -/
def main (inputExists : Bool) (xmlOutcome : Option Xml) (fileModificationDate : String)
    (_prior : Option (List (List String))) : Option (List (List String)) :=
  if !inputExists then some [headers]
  else
    match parse_xml_data xmlOutcome fileModificationDate with
    | none => some [headers]
    | some allRowsData =>
      if allRowsData.isEmpty then some [headers]
      else some (headers :: allRowsData.map serializeRow)

end WorktagGrant

/-- A Python value of type "str or None". -/
abbrev PyStr := Option String

/-- A row dict whose values may be Python `None` (`some none`) or a string
(`some (some s)`); `none` means the key is absent. -/
abbrev PcRow := String → Option PyStr

/-- What `csv.DictWriter` emits for a cell: missing key and `None` both
become the empty field. -/
def cellStr (v : Option PyStr) : String :=
  match v with
  | some (some s) => s
  | some none => ""
  | none => ""

namespace PositionCompensation

/-- `NAMESPACE['wd']` of `xml_parser_position_compensation.py`. -/
def NS : String := "urn:com.workday.report/RPT-INTF-S111-CSN-PositionOtherCompensation"

/-- `get_text` of `xml_parser_position_compensation.py` (lines 37-41):
`element.find(path).text`, with `AttributeError` (from a `None` element or a
missing node) giving the default; when the node exists its `text` is
returned even if that text is `None`. -/
def get_text (element : Option Xml) (path : RelPath) (defaultVal : PyStr) : PyStr :=
  match element with
  | none => defaultVal
  | some el =>
    match findPath NS el path with
    | none => defaultVal
    | some node => node.text

/-- `get_attribute` of `xml_parser_position_compensation.py` (lines 44-57). -/
def get_attribute (element : Option Xml) (path : RelPath) (attributeName : String)
    (defaultVal : String) : String :=
  match element with
  | none => defaultVal
  | some el =>
    let targetElement := match path with
      | RelPath.self => some el
      | p => findPath NS el p
    match targetElement with
    | none => defaultVal
    | some target =>
      match target.get (qname NS attributeName) with
      | none => defaultVal
      | some attrValue => attrValue

/-- `get_typed_id_text` of `xml_parser_position_compensation.py` (lines 60-69). -/
def get_typed_id_text (element : Option Xml) (pathToParentOfIds : RelPath)
    (idTypeValue : String) (defaultVal : String) : String :=
  match element with
  | none => defaultVal
  | some el =>
    match findPath NS el pathToParentOfIds with
    | none => defaultVal
    | some parentOfIds =>
      match (findAllNS NS parentOfIds "ID").find?
          (fun idElem => idElem.get (qname NS "type") == some idTypeValue) with
      | none => defaultVal
      | some idElem => idElem.text.getD defaultVal

/-- The `headers` list of `xml_parser_position_compensation.py` (lines 72-80). -/
def headers : List String := [
  "Position_ID", "Employee_ID",
  "Job_Family_Group_Descriptor", "Job_Family_Group_WID", "Job_Family_Group_Job_Family_ID",
  "CF_Staffing_Status_Descriptor", "CF_Staffing_Status_WID", "CF_Staffing_Status_Staffing_Interface_Status_for_CRF_ID",
  "CF_JobCode", "Terminated_based_on_report_date",
  "Compensation_Element_Descriptor", "Compensation_Element_WID", "Compensation_Element_Compensation_Element_ID",
  "Annualized_Amount",
  "Updated_Date"]

/-- Lines 92-114: build `worker_group_data` for one `Report_Entry` (an empty
dict when there is no `Worker_group` child), then stamp `Updated_Date`. -/
def buildWorkerGroupData (workerGroupElement : Option Xml)
    (fileModificationDate : String) : PcRow :=
  let w0 : PcRow := fun _ => none
  let w1 :=
    match workerGroupElement with
    | none => w0
    | some wg =>
      let a0 := dset (dset w0
        "Position_ID" (get_text (some wg) (RelPath.child "Position_ID") (some "")))
        "Employee_ID" (get_text (some wg) (RelPath.child "Employee_ID") (some ""))
      let a1 :=
        match findChildNS NS wg "Job_Family_Group" with
        | none => a0
        | some jfgEl =>
          dset (dset (dset a0
            "Job_Family_Group_Descriptor" (some (get_attribute (some jfgEl) RelPath.self "Descriptor" "")))
            "Job_Family_Group_WID" (some (get_typed_id_text (some jfgEl) RelPath.self "WID" "")))
            "Job_Family_Group_Job_Family_ID" (some (get_typed_id_text (some jfgEl) RelPath.self "Job_Family_ID" ""))
      let a2 :=
        match findChildNS NS wg "CF-Staffing_Status" with
        | none => a1
        | some cssEl =>
          dset (dset (dset a1
            "CF_Staffing_Status_Descriptor" (some (get_attribute (some cssEl) RelPath.self "Descriptor" "")))
            "CF_Staffing_Status_WID" (some (get_typed_id_text (some cssEl) RelPath.self "WID" "")))
            "CF_Staffing_Status_Staffing_Interface_Status_for_CRF_ID" (some (get_typed_id_text (some cssEl) RelPath.self "Staffing_Interface_Status_for_CRF_ID" ""))
      dset (dset a2
        "CF_JobCode" (get_text (some wg) (RelPath.child "CF-JobCode") (some "")))
        "Terminated_based_on_report_date" (get_text (some wg) (RelPath.child "Terminated__based_on_report_date_") (some ""))
  dset w1 "Updated_Date" (some fileModificationDate)

/-- Lines 118-130: one expansion row, from `worker_group_data.copy()` plus
the fields of one `Compensation_Plan_Assignments` child. -/
def compRow (workerGroupData : PcRow) (compAssignmentEl : Xml) : PcRow :=
  let c1 :=
    match findChildNS NS compAssignmentEl "Compensation_Element" with
    | none => workerGroupData
    | some ceEl =>
      dset (dset (dset workerGroupData
        "Compensation_Element_Descriptor" (some (get_attribute (some ceEl) RelPath.self "Descriptor" "")))
        "Compensation_Element_WID" (some (get_typed_id_text (some ceEl) RelPath.self "WID" "")))
        "Compensation_Element_Compensation_Element_ID" (some (get_typed_id_text (some ceEl) RelPath.self "Compensation_Element_ID" ""))
  dset c1 "Annualized_Amount" (get_text (some compAssignmentEl) (RelPath.child "Annualized_Amount") (some ""))

/-- Lines 133-139: the zero-expansion fallback row — `worker_group_data.copy()`
with every header not already present set to the empty string. -/
def emptyCompRow (workerGroupData : PcRow) : PcRow :=
  fun q =>
    match workerGroupData q with
    | some v => some v
    | none => if headers.contains q then some (some "") else none

/-- The body of the `Report_Entry` loop (lines 91-139): the rows emitted for
one entry.  Note the fallback row is appended only when the entry has a
`Worker_group` child. -/
def entryRows (reportEntry : Xml) (fileModificationDate : String) : List PcRow :=
  let workerGroupElement := findChildNS NS reportEntry "Worker_group"
  let workerGroupData := buildWorkerGroupData workerGroupElement fileModificationDate
  let compAssignments := findAllNS NS reportEntry "Compensation_Plan_Assignments"
  let compRows := compAssignments.map (fun c => compRow workerGroupData c)
  if workerGroupElement.isSome && compAssignments.isEmpty then
    compRows ++ [emptyCompRow workerGroupData]
  else compRows

/-- `parse_xml_data` of `xml_parser_position_compensation.py` (lines 82-155). -/
def parse_xml_data (xmlOutcome : Option Xml) (fileModificationDate : String) :
    Option (List PcRow) :=
  match xmlOutcome with
  | none => none
  | some root =>
    some ((findAllNS NS root "Report_Entry").flatMap
      (fun entry => entryRows entry fileModificationDate))

/-- Lines 187-189: serialize one row dict in `headers` order, empty string
for a missing key, empty field for a `None` value. -/
def serializeRow (dataRow : PcRow) : List String :=
  headers.map (fun h => cellStr (dataRow h))

/-- The `__main__` block (lines 158-200) plus the header-only writes in
`parse_xml_data`'s exception handlers. -/
def main (inputExists : Bool) (xmlOutcome : Option Xml) (fileModificationDate : String)
    (_prior : Option (List (List String))) : Option (List (List String)) :=
  if !inputExists then some [headers]
  else
    match parse_xml_data xmlOutcome fileModificationDate with
    | none => some [headers]
    | some allRowsData =>
      if allRowsData.isEmpty then some [headers]
      else some (headers :: allRowsData.map serializeRow)

end PositionCompensation

namespace CostingDaily

/-- `NAMESPACE['wd']` of `xml_parser_costing_allocations_daily.py`. -/
def NS : String := "urn:com.workday.report/RPT-INTF-S111B-(NSHE)_CSN_PositionFunding-Actuals"

/-- `element.findtext('wd:local', default, ns)`: the text of the first
matching direct child, the empty string when that child has `None` text,
the default when there is no such child. -/
def findtext (el : Xml) (localName : String) (defaultVal : String) : String :=
  match findChildNS NS el localName with
  | none => defaultVal
  | some node => node.text.getD ""

/-- `element.findtext(".//wd:ID[@wd:type='tv']", default, ns)`: text of the
first descendant `ID` element (document order) whose qualified `type`
attribute equals `tv`. -/
def findtextDescTypedId (el : Xml) (tv : String) (defaultVal : String) : String :=
  match dfsTypedId NS tv el.children with
  | none => defaultVal
  | some idElem => idElem.text.getD ""

/-- The `headers` list of `xml_parser_costing_allocations_daily.py`
(lines 35-41). -/
def headers : List String := [
  "Position_ID", "Employee_ID", "Active_Status", "Worker_Company_ID",
  "CF-FormattedEffectiveDate", "FYStartDate", "FYEndDate",
  "CF-Ledger", "Earning_Code", "CF-WorktagDriverCode-Combo", "CF-WorktagDriverCode",
  "CAllocation_StartDate", "Distribution_Percent", "Costing_Company_Reference_ID", "Allocation_WID",
  "Updated_Date"]

/-- Lines 59-73: `worker_data` for one `Report_Entry` (worker fields from the
`wd:Worker` child or empty-string defaults), stamped with `Updated_Date`. -/
def buildWorkerData (reportEntry : Xml) (fileModificationDate : String) : StrRow :=
  let w0 : StrRow := fun _ => none
  let w1 :=
    match findChildNS NS reportEntry "Worker" with
    | some workerElement =>
      dset (dset (dset (dset (dset (dset (dset w0
        "Position_ID" (findtext workerElement "Position_ID" ""))
        "Employee_ID" (findtext workerElement "Employee_ID" ""))
        "Active_Status" (findtext workerElement "Active_Status" ""))
        "Worker_Company_ID" (findtext workerElement "Company_ID" ""))
        "CF-FormattedEffectiveDate" (findtext workerElement "CF-FormattedEffectiveDate" ""))
        "FYStartDate" (findtext workerElement "FYStartDate" ""))
        "FYEndDate" (findtext workerElement "FYEndDate" "")
    | none =>
      dset (dset (dset (dset (dset (dset (dset w0
        "Position_ID" "") "Employee_ID" "") "Active_Status" "") "Worker_Company_ID" "")
        "CF-FormattedEffectiveDate" "") "FYStartDate" "") "FYEndDate" ""
  dset w1 "Updated_Date" fileModificationDate

/-- Lines 78-99: the allocation-specific fields of one `AllocationDetails`
child, written over a copy of `worker_data`. -/
def setAllocFields (workerData : StrRow) (allocDetail : Xml) : StrRow :=
  let c0 := dset workerData "CF-Ledger" (findtext allocDetail "CF-Ledger" "")
  let c1 :=
    match findChildNS NS allocDetail "EarningType" with
    | some earningTypeElement =>
      dset c0 "Earning_Code" (findtextDescTypedId earningTypeElement "Earning_Code" "")
    | none => dset c0 "Earning_Code" ""
  let c2 := dset (dset (dset (dset c1
    "CF-WorktagDriverCode-Combo" (findtext allocDetail "CF-WorktagDriverCode-Combo" ""))
    "CF-WorktagDriverCode" (findtext allocDetail "CF-WorktagDriverCode" ""))
    "CAllocation_StartDate" (findtext allocDetail "CAllocation_StartDate" ""))
    "Distribution_Percent" (findtext allocDetail "Distribution_Percent" "")
  let c3 :=
    match findChildNS NS allocDetail "Costing_Company" with
    | some costingCompanyElement =>
      dset c2 "Costing_Company_Reference_ID" (findtextDescTypedId costingCompanyElement "Company_Reference_ID" "")
    | none => dset c2 "Costing_Company_Reference_ID" ""
  dset c3 "Allocation_WID" (findtext allocDetail "WID" "")

/-- Lines 103-106: the zero-expansion fallback — worker data with every
allocation-specific field set to the empty string. -/
def clearAllocFields (workerData : StrRow) : StrRow :=
  dset (dset (dset (dset (dset (dset (dset (dset workerData
    "CF-Ledger" "") "Earning_Code" "") "CF-WorktagDriverCode-Combo" "")
    "CF-WorktagDriverCode" "") "CAllocation_StartDate" "") "Distribution_Percent" "")
    "Costing_Company_Reference_ID" "") "Allocation_WID" ""

/-- Line 101 / 108: `[current_row_data.get(header, '') for header in headers]`. -/
def rowFromDict (currentRowData : StrRow) : List String :=
  headers.map (fun h => (currentRowData h).getD "")

/-- The body of the `Report_Entry` loop (lines 58-108): the output rows for
one entry. -/
def entryRows (reportEntry : Xml) (fileModificationDate : String) : List (List String) :=
  let workerData := buildWorkerData reportEntry fileModificationDate
  let allocationDetails := findAllNS NS reportEntry "AllocationDetails"
  if !allocationDetails.isEmpty then
    allocationDetails.map (fun allocDetail => rowFromDict (setAllocFields workerData allocDetail))
  else
    [rowFromDict (clearAllocFields workerData)]

/-- `parse_funding_actuals_xml` (lines 43-109): `None` when `ET.parse`
raises, otherwise the concatenated rows of all entries in document order. -/
def parse_funding_actuals_xml (xmlOutcome : Option Xml) (fileModificationDate : String) :
    Option (List (List String)) :=
  match xmlOutcome with
  | none => none
  | some root =>
    some ((findAllNS NS root "Report_Entry").flatMap
      (fun entry => entryRows entry fileModificationDate))

/-- `write_to_csv` (lines 111-138) as called from `__main__` with a
non-`None` row list: header first, then the data rows. -/
def write_to_csv (dataRows : List (List String)) (columnHeaders : List String) :
    List (List String) :=
  columnHeaders :: dataRows

/-- Lines 152-158: the provenance date — the formatted modification time, or
the empty string when the timestamp cannot be retrieved.  `strftimeYmd`
stands for `datetime.fromtimestamp(..).strftime('%Y-%m-%d')`. -/
def formattedModDate (mtimeResult : Option Nat) (strftimeYmd : Nat → String) : String :=
  match mtimeResult with
  | some timestamp => strftimeYmd timestamp
  | none => ""

/-- The `__main__` block (lines 141-180): the resulting output-file content
given input existence, parse outcome and the output file's previous content
(`none` = no file existed).  On a parse failure nothing is written unless no
output file exists, in which case a header-only file is created. -/
def main (inputExists : Bool) (xmlOutcome : Option Xml)
    (fileModificationDate : String) (prior : Option (List (List String))) :
    Option (List (List String)) :=
  if !inputExists then some [headers]
  else
    match parse_funding_actuals_xml xmlOutcome fileModificationDate with
    | some parsedRows => some (write_to_csv parsedRows headers)
    | none =>
      match prior with
      | some content => some content
      | none => some [headers]

end CostingDaily

namespace PositionMaster

/-- `NAMESPACE['wd']` of `xml_parser_position_master.py`. -/
def NS : String := "urn:com.workday.report/RPT-INTF-S111-(NSHE)_CSN-PositionMaster"

/-- `get_text` of `xml_parser_position_master.py` (lines 35-40): default is
`None` unless supplied; a found node's `text` is returned even when `None`. -/
def get_text (element : Option Xml) (path : RelPath) (defaultVal : Option String) :
    Option String :=
  match element with
  | none => defaultVal
  | some el =>
    match findPath NS el path with
    | none => defaultVal
    | some node => node.text

/-- `get_attribute` of `xml_parser_position_master.py` (lines 42-47): note it
returns `element.find(path).get(attribute_qname)` directly, so a present
target with an absent attribute yields `None`, not the default. -/
def get_attribute (element : Option Xml) (path : RelPath) (attributeQname : String)
    (defaultVal : Option String) : Option String :=
  match element with
  | none => defaultVal
  | some el =>
    match findPath NS el path with
    | none => defaultVal
    | some target => target.get attributeQname

/-- `get_typed_id_text` of `xml_parser_position_master.py` (lines 49-62):
unlike the worktag-family version, a matching `wd:ID` child whose text is
falsy (`None` or empty) is skipped, and scanning continues with later
children. -/
def get_typed_id_text (element : Option Xml) (pathToParentOfIds : RelPath)
    (idTypeValue : String) (defaultVal : Option String) : Option String :=
  match element with
  | none => defaultVal
  | some el =>
    match findPath NS el pathToParentOfIds with
    | none => defaultVal
    | some parentOfIds =>
      match (findAllNS NS parentOfIds "ID").find?
          (fun idElem => idElem.get (qname NS "type") == some idTypeValue
            && !((idElem.text.getD "") == "")) with
      | none => defaultVal
      | some idElem => idElem.text

/-- `get_all_field_names` (lines 77-124). -/
def field_names : List String := [
  "Unit_Descriptor", "Unit_ID_WID", "Unit_ID_Organization_Reference_ID", "Unit_ID_Custom_Organization_Reference_ID",
  "PositionManagement_Position_ID", "PositionManagement_Job_Code", "PositionManagement_Position_Title",
  "PositionManagement_Open_Position_Title", "PositionManagement_FTE",
  "PositionManagement_CF_Worker_Comp_Step_Descriptor", "PositionManagement_CF_Worker_Comp_Step_ID_WID",
  "PositionManagement_CF_Worker_Comp_Step_ID_Compensation_Step_ID", "PositionManagement_CF_CompGradeRefID",
  "PositionManagement_Staffing_Status_Descriptor", "PositionManagement_Staffing_Status_ID_WID",
  "PositionManagement_Staffing_Status_ID_Staffing_Interface_Status_for_CRF_ID",
  "EmployeeID", "Cost_Center_Descriptor", "Cost_Center_ID_WID", "Cost_Center_ID_Organization_Reference_ID",
  "Cost_Center_ID_Cost_Center_Reference_ID", "CF_CostCenterID",
  "Worker_Is_Classified", "Worker_Last_Name", "Worker_First_Name", "Worker_Work_Email", "Worker_BusinessTitle",
  "Worker_CF_TenureStatus", "Worker_Worker_Compensation_Grade_Descriptor",
  "Worker_Worker_Compensation_Grade_ID_WID", "Worker_Worker_Compensation_Grade_ID_Compensation_Grade_ID",
  "Worker_CF_Worker_Comp_Grade_WID", "Worker_Worker_Compensation_Grade_Profile_Descriptor",
  "Worker_Worker_Compensation_Grade_Profile_ID_WID", "Worker_Worker_Compensation_Grade_Profile_ID_Compensation_Grade_Profile_ID",
  "Worker_CF_Worker_Comp_Grade_Prof_WID", "Worker_SeniorityDate", "Worker_OriginalHireDate",
  "Worker_ContinuousServiceDate", "Worker_Eff_Date_CurrentPosition", "Worker_LastPayIncreaseDate",
  "Worker_Position_Worker_Type_Descriptor", "Worker_Position_Worker_Type_ID_WID",
  "Worker_Position_Worker_Type_ID_Employee_Type_ID", "Worker_Medicare_Flag",
  "Eligibility_Rules_Descriptor", "Eligibility_Rules_ID_WID",
  "Default_Compensation_Grade_group_Compensation_Grade_Descriptor",
  "Default_Compensation_Grade_group_Compensation_Grade_ID_WID",
  "Default_Compensation_Grade_group_Compensation_Grade_ID_Compensation_Grade_ID",
  "Default_Compensation_Grade_group_WID", "Default_Compensation_Grade_group_Profiles_Serialized",
  "Default_Compensation_Grade_Profile_group_CF_CompGradeProf_WID",
  "PositionJob_Job_Family_Group_Descriptor", "PositionJob_Job_Family_Group_ID_WID",
  "PositionJob_Job_Family_Group_ID_Job_Family_ID", "PositionJob_CF_IsWorkerEmpty",
  "PositionJob_CF_Step", "PositionJob_CF_MeritStep", "PositionJob_CF_MeritDate",
  "PositionRestrictions_RetirementCodeOld", "PositionRestrictions_Health_Insurance_Yr1_Flag",
  "PositionRestrictions_Health_Insurance_Yr2_Flag", "PositionRestrictions_Partial_Flag",
  "PositionRestrictions_Retirement_Flag", "PositionRestrictions_Workers_Comp_Flag",
  "PositionRestrictions_Personnel_Assessment_Flag", "PositionRestrictions_Unemployment_Flag",
  "PositionRestrictions_GroupInsFlag", "PositionRestrictions_Medicare_Flag_OLD",
  "PositionRestrictions_FICA_Flag", "PositionRestrictions_AG_Tort_Flag",
  "PositionRestrictions_Employee_Bond_Flag", "PositionRestrictions_Merit_Increase_Flag",
  "Retirement_Savings_Election_group_RetirementCode_Descriptor",
  "Retirement_Savings_Election_group_RetirementCode_ID_WID",
  "Retirement_Savings_Election_group_RetirementCode_ID_Defined_Contribution_Plan_ID",
  "Retirement_Savings_Election_group_RetirementCode_ID_Benefit_Plan_ID",
  "Retirement_Savings_Election_group_Employer_Contribution_Percentage",
  "Retirement_Savings_Election_group_Elected",
  "Updated_Date"]

/-- A record dict of this script: every key of `field_names` is present, its
value is "str or None" (`none` = Python `None`).  Assignment keeps the
assigned value as-is, so we use `pset` rather than `dset`. -/
abbrev PmRec := String → Option String

/-- `record[k] = v` where `v` may itself be `None`. -/
def pset (m : PmRec) (k : String) (v : Option String) : PmRec :=
  fun q => if q = k then v else m q

/-- Line 139: `record = {name: None for name in field_names}` — every column
starts out as Python `None` (lookups are only ever made at `field_names`). -/
def initRecord : PmRec := fun _ => none

/-- One element of the `profiles` list of lines 239-246: Descriptor, ID_WID,
ID_Compensation_Grade_Profile_ID. -/
abbrev Profile := Option String × Option String × Option String

/-- Lines 138-300: build the flattened record for one `Report_Entry`.
`jdumps` stands for the external `json.dumps` applied to the profiles list. -/
def buildRecord (jdumps : List Profile → String) (reportEntry : Xml)
    (fileModificationDate : String) : PmRec :=
  let record := pset initRecord "Updated_Date" (some fileModificationDate)
  let record :=
    match findChildNS NS reportEntry "Unit" with
    | none => record
    | some unitElement =>
      pset (pset (pset (pset record
        "Unit_Descriptor" (unitElement.get (qname NS "Descriptor")))
        "Unit_ID_WID" (get_typed_id_text (some unitElement) RelPath.self "WID" none))
        "Unit_ID_Organization_Reference_ID" (get_typed_id_text (some unitElement) RelPath.self "Organization_Reference_ID" none))
        "Unit_ID_Custom_Organization_Reference_ID" (get_typed_id_text (some unitElement) RelPath.self "Custom_Organization_Reference_ID" none)
  let record :=
    match findChildNS NS reportEntry "PositionManagement" with
    | none => record
    | some pmElement =>
      let record := pset (pset (pset (pset (pset (pset record
        "PositionManagement_Position_ID" (get_text (some pmElement) (RelPath.child "Position_ID") none))
        "PositionManagement_Job_Code" (get_text (some pmElement) (RelPath.child "Job_Code") none))
        "PositionManagement_Position_Title" (get_text (some pmElement) (RelPath.child "Position_Title") none))
        "PositionManagement_Open_Position_Title" (get_text (some pmElement) (RelPath.child "Open_Position_Title") none))
        "PositionManagement_FTE" (get_text (some pmElement) (RelPath.child "FTE") none))
        "PositionManagement_CF_CompGradeRefID" (get_text (some pmElement) (RelPath.child "CF-CompGradeRefID") none)
      let record :=
        match findChildNS NS pmElement "CF-Worker_Comp_Step" with
        | none => record
        | some cfWorkerCompStep =>
          pset (pset (pset record
            "PositionManagement_CF_Worker_Comp_Step_Descriptor" (cfWorkerCompStep.get (qname NS "Descriptor")))
            "PositionManagement_CF_Worker_Comp_Step_ID_WID" (get_typed_id_text (some cfWorkerCompStep) RelPath.self "WID" none))
            "PositionManagement_CF_Worker_Comp_Step_ID_Compensation_Step_ID" (get_typed_id_text (some cfWorkerCompStep) RelPath.self "Compensation_Step_ID" none)
      match findChildNS NS pmElement "Staffing_Status" with
      | none => record
      | some staffingStatus =>
        pset (pset (pset record
          "PositionManagement_Staffing_Status_Descriptor" (staffingStatus.get (qname NS "Descriptor")))
          "PositionManagement_Staffing_Status_ID_WID" (get_typed_id_text (some staffingStatus) RelPath.self "WID" none))
          "PositionManagement_Staffing_Status_ID_Staffing_Interface_Status_for_CRF_ID" (get_typed_id_text (some staffingStatus) RelPath.self "Staffing_Interface_Status_for_CRF_ID" none)
  let record := pset record "EmployeeID" (get_text (some reportEntry) (RelPath.child "EmployeeID") none)
  let record :=
    match findChildNS NS reportEntry "Cost_Center" with
    | none => record
    | some ccElement =>
      pset (pset (pset (pset record
        "Cost_Center_Descriptor" (ccElement.get (qname NS "Descriptor")))
        "Cost_Center_ID_WID" (get_typed_id_text (some ccElement) RelPath.self "WID" none))
        "Cost_Center_ID_Organization_Reference_ID" (get_typed_id_text (some ccElement) RelPath.self "Organization_Reference_ID" none))
        "Cost_Center_ID_Cost_Center_Reference_ID" (get_typed_id_text (some ccElement) RelPath.self "Cost_Center_Reference_ID" none)
  let record := pset record "CF_CostCenterID" (get_text (some reportEntry) (RelPath.child "CF-CostCenterID") none)
  let record :=
    match findChildNS NS reportEntry "Worker" with
    | none => record
    | some workerElement =>
      let record := pset (pset (pset (pset (pset (pset (pset (pset (pset (pset (pset (pset (pset record
        "Worker_Is_Classified" (get_text (some workerElement) (RelPath.child "Is_Classified") none))
        "Worker_Last_Name" (get_text (some workerElement) (RelPath.child "Last_Name") none))
        "Worker_First_Name" (get_text (some workerElement) (RelPath.child "First_Name") none))
        "Worker_Work_Email" (get_text (some workerElement) (RelPath.child "Work_Email") none))
        "Worker_BusinessTitle" (get_text (some workerElement) (RelPath.child "BusinessTitle") none))
        "Worker_CF_TenureStatus" (get_text (some workerElement) (RelPath.child "CF-TenureStatus") none))
        "Worker_SeniorityDate" (get_text (some workerElement) (RelPath.child "SeniorityDate") none))
        "Worker_OriginalHireDate" (get_text (some workerElement) (RelPath.child "OriginalHireDate") none))
        "Worker_ContinuousServiceDate" (get_text (some workerElement) (RelPath.child "ContinuousServiceDate") none))
        "Worker_Eff_Date_CurrentPosition" (get_text (some workerElement) (RelPath.child "Eff_Date_CurrentPosition") none))
        "Worker_LastPayIncreaseDate" (get_text (some workerElement) (RelPath.child "LastPayIncreaseDate") none))
        "Worker_Medicare_Flag" (get_text (some workerElement) (RelPath.child "Medicare_Flag") none))
        "Worker_CF_Worker_Comp_Grade_WID" (get_text (some workerElement) (RelPath.child "CF_-_Worker_Comp_Grade_WID") none)
      let record := pset record
        "Worker_CF_Worker_Comp_Grade_Prof_WID" (get_text (some workerElement) (RelPath.child "CF_-_Worker_Comp_Grade_Prof_WID") none)
      let record :=
        match findChildNS NS workerElement "Worker_Compensation_Grade" with
        | none => record
        | some wcgElement =>
          pset (pset (pset record
            "Worker_Worker_Compensation_Grade_Descriptor" (wcgElement.get (qname NS "Descriptor")))
            "Worker_Worker_Compensation_Grade_ID_WID" (get_typed_id_text (some wcgElement) RelPath.self "WID" none))
            "Worker_Worker_Compensation_Grade_ID_Compensation_Grade_ID" (get_typed_id_text (some wcgElement) RelPath.self "Compensation_Grade_ID" none)
      let record :=
        match findChildNS NS workerElement "Worker_Compensation_Grade_Profile" with
        | none => record
        | some wcgpElement =>
          pset (pset (pset record
            "Worker_Worker_Compensation_Grade_Profile_Descriptor" (wcgpElement.get (qname NS "Descriptor")))
            "Worker_Worker_Compensation_Grade_Profile_ID_WID" (get_typed_id_text (some wcgpElement) RelPath.self "WID" none))
            "Worker_Worker_Compensation_Grade_Profile_ID_Compensation_Grade_Profile_ID" (get_typed_id_text (some wcgpElement) RelPath.self "Compensation_Grade_Profile_ID" none)
      match findChildNS NS workerElement "Position_Worker_Type" with
      | none => record
      | some pwtElement =>
        pset (pset (pset record
          "Worker_Position_Worker_Type_Descriptor" (pwtElement.get (qname NS "Descriptor")))
          "Worker_Position_Worker_Type_ID_WID" (get_typed_id_text (some pwtElement) RelPath.self "WID" none))
          "Worker_Position_Worker_Type_ID_Employee_Type_ID" (get_typed_id_text (some pwtElement) RelPath.self "Employee_Type_ID" none)
  let record :=
    match findChildNS NS reportEntry "Eligibility_Rules" with
    | none => record
    | some erElement =>
      pset (pset record
        "Eligibility_Rules_Descriptor" (erElement.get (qname NS "Descriptor")))
        "Eligibility_Rules_ID_WID" (get_typed_id_text (some erElement) RelPath.self "WID" none)
  let record :=
    match findChildNS NS reportEntry "Default_Compensation_Grade_group" with
    | none => record
    | some dcgGroupElement =>
      let record := pset record
        "Default_Compensation_Grade_group_WID" (get_text (some dcgGroupElement) (RelPath.child "WID") none)
      let record :=
        match findChildNS NS dcgGroupElement "Compensation_Grade" with
        | none => record
        | some compGradeElem =>
          pset (pset (pset record
            "Default_Compensation_Grade_group_Compensation_Grade_Descriptor" (compGradeElem.get (qname NS "Descriptor")))
            "Default_Compensation_Grade_group_Compensation_Grade_ID_WID" (get_typed_id_text (some compGradeElem) RelPath.self "WID" none))
            "Default_Compensation_Grade_group_Compensation_Grade_ID_Compensation_Grade_ID" (get_typed_id_text (some compGradeElem) RelPath.self "Compensation_Grade_ID" none)
      let profiles : List Profile :=
        (findAllNS NS dcgGroupElement "Compensation_Grade_Profiles").map
          (fun profileElem =>
            (profileElem.get (qname NS "Descriptor"),
             get_typed_id_text (some profileElem) RelPath.self "WID" none,
             get_typed_id_text (some profileElem) RelPath.self "Compensation_Grade_Profile_ID" none))
      if !profiles.isEmpty then
        pset record "Default_Compensation_Grade_group_Profiles_Serialized" (some (jdumps profiles))
      else record
  let record :=
    match findChildNS NS reportEntry "Default_Compensation_Grade_Profile_group" with
    | none => record
    | some dcgpGroupElement =>
      pset record "Default_Compensation_Grade_Profile_group_CF_CompGradeProf_WID"
        (get_text (some dcgpGroupElement) (RelPath.child "CF-CompGradeProf-WID") none)
  let record :=
    match findChildNS NS reportEntry "PositionJob" with
    | none => record
    | some pjElement =>
      let record := pset (pset (pset (pset record
        "PositionJob_CF_IsWorkerEmpty" (get_text (some pjElement) (RelPath.child "CF-IsWorkerEmpty") none))
        "PositionJob_CF_Step" (get_text (some pjElement) (RelPath.child "CF-Step") none))
        "PositionJob_CF_MeritStep" (get_text (some pjElement) (RelPath.child "CF-MeritStep") none))
        "PositionJob_CF_MeritDate" (get_text (some pjElement) (RelPath.child "CF-MeritDate") none)
      match findChildNS NS pjElement "Job_Family_Group" with
      | none => record
      | some jobFamilyGroup =>
        pset (pset (pset record
          "PositionJob_Job_Family_Group_Descriptor" (jobFamilyGroup.get (qname NS "Descriptor")))
          "PositionJob_Job_Family_Group_ID_WID" (get_typed_id_text (some jobFamilyGroup) RelPath.self "WID" none))
          "PositionJob_Job_Family_Group_ID_Job_Family_ID" (get_typed_id_text (some jobFamilyGroup) RelPath.self "Job_Family_ID" none)
  let record :=
    match findChildNS NS reportEntry "PositionRestrictions" with
    | none => record
    | some prElement =>
      pset (pset (pset (pset (pset (pset (pset (pset (pset (pset (pset (pset (pset (pset record
        "PositionRestrictions_RetirementCodeOld" (get_text (some prElement) (RelPath.child "RetirementCodeOld") none))
        "PositionRestrictions_Health_Insurance_Yr1_Flag" (get_text (some prElement) (RelPath.child "Health_Insurance_Yr1_Flag") none))
        "PositionRestrictions_Health_Insurance_Yr2_Flag" (get_text (some prElement) (RelPath.child "Health_Insurance_Yr2_Flag") none))
        "PositionRestrictions_Partial_Flag" (get_text (some prElement) (RelPath.child "Partial_Flag") none))
        "PositionRestrictions_Retirement_Flag" (get_text (some prElement) (RelPath.child "Retirement_Flag") none))
        "PositionRestrictions_Workers_Comp_Flag" (get_text (some prElement) (RelPath.child "Workers_Comp_Flag") none))
        "PositionRestrictions_Personnel_Assessment_Flag" (get_text (some prElement) (RelPath.child "Personnel_Assessment_Flag") none))
        "PositionRestrictions_Unemployment_Flag" (get_text (some prElement) (RelPath.child "Unemployment_Flag") none))
        "PositionRestrictions_GroupInsFlag" (get_text (some prElement) (RelPath.child "GroupInsFlag") none))
        "PositionRestrictions_Medicare_Flag_OLD" (get_text (some prElement) (RelPath.child "Medicare_Flag-OLD") none))
        "PositionRestrictions_FICA_Flag" (get_text (some prElement) (RelPath.child "FICA_Flag") none))
        "PositionRestrictions_AG_Tort_Flag" (get_text (some prElement) (RelPath.child "AG_Tort_Flag") none))
        "PositionRestrictions_Employee_Bond_Flag" (get_text (some prElement) (RelPath.child "Employee_Bond_Flag") none))
        "PositionRestrictions_Merit_Increase_Flag" (get_text (some prElement) (RelPath.child "Merit_Increase_Flag") none)
  match findChildNS NS reportEntry "Retirement_Savings_Election_group" with
  | none => record
  | some rseGroupElement =>
    let record := pset (pset record
      "Retirement_Savings_Election_group_Employer_Contribution_Percentage" (get_text (some rseGroupElement) (RelPath.child "Employer_Contribution_Percentage") none))
      "Retirement_Savings_Election_group_Elected" (get_text (some rseGroupElement) (RelPath.child "Elected") none)
    match findChildNS NS rseGroupElement "RetirementCode" with
    | none => record
    | some retCodeElem =>
      pset (pset (pset (pset record
        "Retirement_Savings_Election_group_RetirementCode_Descriptor" (retCodeElem.get (qname NS "Descriptor")))
        "Retirement_Savings_Election_group_RetirementCode_ID_WID" (get_typed_id_text (some retCodeElem) RelPath.self "WID" none))
        "Retirement_Savings_Election_group_RetirementCode_ID_Defined_Contribution_Plan_ID" (get_typed_id_text (some retCodeElem) RelPath.self "Defined_Contribution_Plan_ID" none))
        "Retirement_Savings_Election_group_RetirementCode_ID_Benefit_Plan_ID" (get_typed_id_text (some retCodeElem) RelPath.self "Benefit_Plan_ID" none)

/-- `parse_workday_xml` (lines 126-309): `None` on `ET.ParseError` /
`FileNotFoundError`, otherwise one record per `Report_Entry`. -/
def parse_workday_xml (jdumps : List Profile → String) (xmlOutcome : Option Xml)
    (fileModificationDate : String) : Option (List PmRec) :=
  match xmlOutcome with
  | none => none
  | some root =>
    some ((findAllNS NS root "Report_Entry").map
      (fun entry => buildRecord jdumps entry fileModificationDate))

/-- `csv.DictWriter.writerow` over `field_names`: a `None` value is emitted
as an empty field. -/
def serializeRecord (record : PmRec) : List String :=
  field_names.map (fun f => (record f).getD "")

/-- `write_to_csv` (lines 311-325): with no data it prints and returns
WITHOUT creating a file (`none`); otherwise header plus one line per record. -/
def write_to_csv (data : List PmRec) : Option (List (List String)) :=
  if data.isEmpty then none
  else some (field_names :: data.map serializeRecord)

/-- The `__main__` block (lines 328-372): resulting output-file content.  A
missing input writes a header-only file; a parse that fails (`None`) or
yields no records writes nothing, leaving any previous output in place. -/
def main (jdumps : List Profile → String) (inputExists : Bool) (xmlOutcome : Option Xml)
    (fileModificationDate : String) (prior : Option (List (List String))) :
    Option (List (List String)) :=
  if !inputExists then some [field_names]
  else
    match parse_workday_xml jdumps xmlOutcome fileModificationDate with
    | none => prior
    | some parsedData =>
      if parsedData.isEmpty then prior
      else
        match write_to_csv parsedData with
        | some content => some content
        | none => prior

end PositionMaster

/-! ### Concrete documents used by counterexamples and witnesses -/

/-- A `Report_Entry` of the position-compensation report with no children at
all: no `Worker_group`, no `Compensation_Plan_Assignments`. -/
def pcEmptyEntry : Xml :=
  Xml.elem (qname PositionCompensation.NS "Report_Entry") [] none []

/-- A well-formed position-master document whose root has no `Report_Entry`
children. -/
def pmEmptyDoc : Xml := Xml.elem "Report_Data" [] none []

/-! ### C10 -/

/-- **C10**: in the costing-allocations driver, when parsing fails (the parse
function returns `None`) and an output file already exists, that file's
contents are left completely unchanged; a fresh header-only file is created
only when no output file exists at the destination. -/
theorem c10_failed_parse_preserves_existing_output (d : String) :
    (∀ content, CostingDaily.main true none d (some content) = some content)
    ∧ CostingDaily.main true none d none = some [CostingDaily.headers] := by
  exact ⟨fun _ => rfl, rfl⟩

/-! ### C3 -/

/-- **C3** (counterexample): for the position-master driver, an existing
input file that is not well-formed XML does NOT produce a header-only output
file — with no pre-existing output file, no output file exists after the
run, contradicting "writes a header-only output file". -/
theorem c3_counterexample :
    PositionMaster.main (fun _ => "") true none "2024-01-01" none = none := rfl

/-- **C3** (amended): if the configured input file does not exist, every
driver writes a header-only output and stops without raising.  If the input
exists but is not well-formed XML, the worktag-grant and
position-compensation drivers write a header-only output; the
costing-allocations driver leaves an existing output file untouched and
creates a header-only file only when none exists; the position-master driver
writes nothing at all (any previous output file is left in place).  In every
case the condition is non-fatal. -/
theorem c3_amended (jdumps : List PositionMaster.Profile → String)
    (xmlOutcome : Option Xml) (d : String) (prior : Option (List (List String))) :
    WorktagGrant.main false xmlOutcome d prior = some [WorktagGrant.headers]
    ∧ WorktagGrant.main true none d prior = some [WorktagGrant.headers]
    ∧ PositionCompensation.main false xmlOutcome d prior = some [PositionCompensation.headers]
    ∧ PositionCompensation.main true none d prior = some [PositionCompensation.headers]
    ∧ PositionMaster.main jdumps false xmlOutcome d prior = some [PositionMaster.field_names]
    ∧ PositionMaster.main jdumps true none d prior = prior
    ∧ CostingDaily.main false xmlOutcome d prior = some [CostingDaily.headers]
    ∧ (∀ content, CostingDaily.main true none d (some content) = some content)
    ∧ CostingDaily.main true none d none = some [CostingDaily.headers] := by
  refine ⟨rfl, rfl, rfl, rfl, rfl, rfl, rfl, fun _ => rfl, rfl⟩

/-! ### C2 -/

/-- **C2** (counterexample): a valid input document containing zero report
entries makes the position-master driver write nothing at all — with no
pre-existing output file there is no output file after the run, so the
output does not "always have exactly one header line". -/
theorem c2_counterexample :
    PositionMaster.main (fun _ => "") true (some pmEmptyDoc) "2024-01-01" none = none := rfl

/-- **C2** (amended): in the position-master script the header-only
guarantee holds only on the missing-input path; a parse failure or a parse
with zero records writes no file (any previous output is kept), and a parse
with at least one record writes the header line followed by the data lines.
The worktag-family drivers do always produce a file whose first line is
exactly the declared column list. -/
theorem c2_amended (jdumps : List PositionMaster.Profile → String)
    (xmlOutcome : Option Xml) (root : Xml) (d : String)
    (prior : Option (List (List String))) :
    PositionMaster.main jdumps false xmlOutcome d prior = some [PositionMaster.field_names]
    ∧ PositionMaster.main jdumps true none d prior = prior
    ∧ PositionMaster.main jdumps true (some root) d prior =
        (if ((findAllNS PositionMaster.NS root "Report_Entry").map
              (fun e => PositionMaster.buildRecord jdumps e d)).isEmpty
         then prior
         else some (PositionMaster.field_names ::
              ((findAllNS PositionMaster.NS root "Report_Entry").map
                (fun e => PositionMaster.buildRecord jdumps e d)).map
                PositionMaster.serializeRecord))
    ∧ (∀ (inputExists : Bool) (xo : Option Xml) (d2 : String)
          (p2 : Option (List (List String))),
        ∃ dataLines, WorktagGrant.main inputExists xo d2 p2
          = some (WorktagGrant.headers :: dataLines)) := by
  refine ⟨rfl, rfl, ?_, ?_⟩
  · show (match PositionMaster.parse_workday_xml jdumps (some root) d with
      | none => prior
      | some parsedData =>
        if parsedData.isEmpty then prior
        else
          match PositionMaster.write_to_csv parsedData with
          | some content => some content
          | none => prior) = _
    simp only [PositionMaster.parse_workday_xml, PositionMaster.write_to_csv]
    cases h : ((findAllNS PositionMaster.NS root "Report_Entry").map
        (fun e => PositionMaster.buildRecord jdumps e d)).isEmpty <;> simp [h]
  · intro inputExists xo d2 p2
    cases inputExists with
    | false => exact ⟨[], rfl⟩
    | true =>
      cases xo with
      | none => exact ⟨[], rfl⟩
      | some r2 =>
        show ∃ dataLines,
          (match WorktagGrant.parse_xml_data (some r2) d2 with
            | none => some [WorktagGrant.headers]
            | some allRowsData =>
              if allRowsData.isEmpty then some [WorktagGrant.headers]
              else some (WorktagGrant.headers :: allRowsData.map WorktagGrant.serializeRow))
            = some (WorktagGrant.headers :: dataLines)
        simp only [WorktagGrant.parse_xml_data]
        cases h : ((findAllNS WorktagGrant.NS r2 "Report_Entry").map
            (fun entry => WorktagGrant.buildRow entry d2)).isEmpty <;> simp [h]

/-! ### C1 -/

/-- **C1** (counterexample): in the position-compensation parser, a report
entry with no `Worker_group` child and no `Compensation_Plan_Assignments`
children yields zero rows, not `max(1, 0) = 1`. -/
theorem c1_counterexample :
    (PositionCompensation.entryRows pcEmptyEntry "2024-01-01").length
      ≠ max 1 (findAllNS PositionCompensation.NS pcEmptyEntry
          "Compensation_Plan_Assignments").length := by
  decide

/-- **C1** (amended): in the costing-allocations parser the number of rows
per entry is exactly `max(1, count of AllocationDetails children)`.  In the
position-compensation parser an entry with N ≥ 1
`Compensation_Plan_Assignments` children yields N rows, while an entry with
zero yields one row only when it has a `Worker_group` child and zero rows
otherwise. -/
theorem c1_amended (entry : Xml) (d : String) :
    (CostingDaily.entryRows entry d).length
        = max 1 (findAllNS CostingDaily.NS entry "AllocationDetails").length
    ∧ (PositionCompensation.entryRows entry d).length
        = (if (findAllNS PositionCompensation.NS entry
              "Compensation_Plan_Assignments").isEmpty
           then (if (findChildNS PositionCompensation.NS entry "Worker_group").isSome
                 then 1 else 0)
           else (findAllNS PositionCompensation.NS entry
              "Compensation_Plan_Assignments").length) := by
  constructor
  · unfold CostingDaily.entryRows
    cases h : (findAllNS CostingDaily.NS entry "AllocationDetails").isEmpty
    · have hpos : 0 < (findAllNS CostingDaily.NS entry "AllocationDetails").length := by
        cases hl : findAllNS CostingDaily.NS entry "AllocationDetails" with
        | nil => rw [hl] at h; simp at h
        | cons a t => simp [hl]
      simp only [h, Bool.not_false, if_true, List.length_map]
      omega
    · rw [List.isEmpty_iff.mp h]
      simp
  · unfold PositionCompensation.entryRows
    cases h : (findAllNS PositionCompensation.NS entry
        "Compensation_Plan_Assignments").isEmpty
    · simp [h]
    · rw [List.isEmpty_iff.mp h]
      cases h2 : (findChildNS PositionCompensation.NS entry "Worker_group").isSome <;>
        simp [h2]

/-! ### C6 -/

theorem costing_buildWorkerData_updated (e : Xml) (d : String) :
    CostingDaily.buildWorkerData e d "Updated_Date" = some d := by
  simp [CostingDaily.buildWorkerData, dset]

theorem costing_setAllocFields_updated (m : StrRow) (a : Xml) :
    CostingDaily.setAllocFields m a "Updated_Date" = m "Updated_Date" := by
  unfold CostingDaily.setAllocFields
  cases h1 : findChildNS CostingDaily.NS a "EarningType" <;>
    cases h2 : findChildNS CostingDaily.NS a "Costing_Company" <;>
      simp [h1, h2, dset]

theorem costing_clearAllocFields_updated (m : StrRow) :
    CostingDaily.clearAllocFields m "Updated_Date" = m "Updated_Date" := by
  simp [CostingDaily.clearAllocFields, dset]

theorem costing_rowFromDict_last (m : StrRow) :
    (CostingDaily.rowFromDict m)[15]? = some ((m "Updated_Date").getD "") := by
  simp [CostingDaily.rowFromDict, CostingDaily.headers]

theorem costing_entryRows_updated (e : Xml) (d : String) (row : List String)
    (h : row ∈ CostingDaily.entryRows e d) : row[15]? = some d := by
  unfold CostingDaily.entryRows at h
  cases hA : (findAllNS CostingDaily.NS e "AllocationDetails").isEmpty
  · simp only [hA, Bool.not_false, if_true, List.mem_map] at h
    obtain ⟨a, _, rfl⟩ := h
    rw [costing_rowFromDict_last, costing_setAllocFields_updated,
      costing_buildWorkerData_updated]
    rfl
  · simp only [hA, Bool.not_true, Bool.false_eq_true, if_false, List.mem_singleton] at h
    subst h
    rw [costing_rowFromDict_last, costing_clearAllocFields_updated,
      costing_buildWorkerData_updated]
    rfl

/-- **C6**: the provenance value (`Updated_Date`) is computed once per input
file from the file's modification timestamp (empty string when the timestamp
cannot be retrieved), and every row emitted from that file carries this
identical value in the `Updated_Date` column (index 15 of the declared
headers). -/
theorem c6_provenance_identical_per_row (mtimeResult : Option Nat)
    (strftimeYmd : Nat → String) (root : Xml) :
    CostingDaily.parse_funding_actuals_xml (some root)
        (CostingDaily.formattedModDate mtimeResult strftimeYmd)
      = some ((findAllNS CostingDaily.NS root "Report_Entry").flatMap
          (fun e => CostingDaily.entryRows e
            (CostingDaily.formattedModDate mtimeResult strftimeYmd)))
    ∧ ((findAllNS CostingDaily.NS root "Report_Entry").flatMap
        (fun e => CostingDaily.entryRows e
          (CostingDaily.formattedModDate mtimeResult strftimeYmd))).Forall
        (fun row => row[15]?
          = some (CostingDaily.formattedModDate mtimeResult strftimeYmd))
    ∧ CostingDaily.formattedModDate none strftimeYmd = "" := by
  refine ⟨rfl, ?_, rfl⟩
  rw [List.forall_iff_forall_mem]
  intro row hrow
  obtain ⟨e, _, hre⟩ := List.mem_flatMap.mp hrow
  exact costing_entryRows_updated e _ row hre

/-! ### C5 -/

/-- **C5**: every extraction helper called with a null element, or with a
relative path whose target element or attribute is absent, returns the
caller-supplied default (the `try/except AttributeError` guards are modelled
by the corresponding case splits, so no exception escapes). -/
theorem c5_helpers_return_default (p : RelPath) (v a d : String) (dp : PyStr)
    (el : Xml) :
    WorktagGrant.get_text none p d = d
    ∧ WorktagGrant.get_attribute none p a d = d
    ∧ WorktagGrant.get_typed_id_text none p v d = d
    ∧ PositionCompensation.get_text none p dp = dp
    ∧ PositionCompensation.get_attribute none p a d = d
    ∧ PositionCompensation.get_typed_id_text none p v d = d
    ∧ (findPath WorktagGrant.NS el p = none →
        WorktagGrant.get_text (some el) p d = d
        ∧ WorktagGrant.get_attribute (some el) p a d = d
        ∧ WorktagGrant.get_typed_id_text (some el) p v d = d)
    ∧ (findPath PositionCompensation.NS el p = none →
        PositionCompensation.get_text (some el) p dp = dp
        ∧ PositionCompensation.get_attribute (some el) p a d = d
        ∧ PositionCompensation.get_typed_id_text (some el) p v d = d)
    ∧ (el.get (qname WorktagGrant.NS a) = none →
        WorktagGrant.get_attribute (some el) RelPath.self a d = d)
    ∧ (el.get (qname PositionCompensation.NS a) = none →
        PositionCompensation.get_attribute (some el) RelPath.self a d = d) := by
  refine ⟨rfl, rfl, rfl, rfl, rfl, rfl, ?_, ?_, ?_, ?_⟩
  · intro h
    refine ⟨by simp [WorktagGrant.get_text, h], ?_, by simp [WorktagGrant.get_typed_id_text, h]⟩
    cases p with
    | self => simp [findPath] at h
    | child l => simp [WorktagGrant.get_attribute, h]
    | chain x y => simp [WorktagGrant.get_attribute, h]
  · intro h
    refine ⟨by simp [PositionCompensation.get_text, h], ?_,
      by simp [PositionCompensation.get_typed_id_text, h]⟩
    cases p with
    | self => simp [findPath] at h
    | child l => simp [PositionCompensation.get_attribute, h]
    | chain x y => simp [PositionCompensation.get_attribute, h]
  · intro h
    simp [WorktagGrant.get_attribute, h]
  · intro h
    simp [PositionCompensation.get_attribute, h]

/-- Witness for C5 at a concrete childless, attribute-less element. -/
theorem c5_helpers_return_default_witness :
    WorktagGrant.get_text (some (Xml.elem "e" [] none [])) (RelPath.child "X") "dflt" = "dflt"
    ∧ PositionCompensation.get_typed_id_text (some (Xml.elem "e" [] none []))
        (RelPath.child "X") "WID" "dflt" = "dflt"
    ∧ WorktagGrant.get_attribute (some (Xml.elem "e" [] none [])) RelPath.self
        "Descriptor" "dflt" = "dflt" :=
  ⟨((c5_helpers_return_default (RelPath.child "X") "WID" "Descriptor" "dflt"
      (some "") (Xml.elem "e" [] none [])).2.2.2.2.2.2.1 rfl).1,
   ((c5_helpers_return_default (RelPath.child "X") "WID" "Descriptor" "dflt"
      (some "") (Xml.elem "e" [] none [])).2.2.2.2.2.2.2.1 rfl).2.2,
   (c5_helpers_return_default (RelPath.child "X") "WID" "Descriptor" "dflt"
      (some "") (Xml.elem "e" [] none [])).2.2.2.2.2.2.2.2.1 rfl⟩

/-- An entry with two `Fund_group` children where only the SECOND carries a
`Fund_Code`: `find('wd:Fund_group/wd:Fund_Code')` must not fail on the
first, code-less group. -/
def wgTwoGroupsEntry : Xml :=
  Xml.elem (qname WorktagGrant.NS "Report_Entry") [] none
    [Xml.elem (qname WorktagGrant.NS "Fund_group") [] none [],
     Xml.elem (qname WorktagGrant.NS "Fund_group") [] none
       [Xml.elem (qname WorktagGrant.NS "Fund_Code") [] (some "X") []]]

/-- Validation of the `'wd:A/wd:B'` path semantics: like ElementTree, the
model searches `B` under every `A` child in document order, so the leaf in
the second `Fund_group` is found even though the first `Fund_group` has no
`Fund_Code` child. -/
theorem findPath_chain_searches_all_groups :
    WorktagGrant.get_text (some wgTwoGroupsEntry)
        (RelPath.chain "Fund_group" "Fund_Code") "" = "X"
    ∧ findPath WorktagGrant.NS wgTwoGroupsEntry
        (RelPath.chain "Fund_group" "Fund_Code")
      = some (Xml.elem (qname WorktagGrant.NS "Fund_Code") [] (some "X") []) :=
  ⟨rfl, rfl⟩

/-! ### C8 -/

theorem wg_initRow_foldl (hs : List String) (m : StrRow) (q : String) :
    (hs.foldl (fun acc h => dset acc h "") m) q = if q ∈ hs then some "" else m q := by
  induction hs generalizing m with
  | nil => simp
  | cons h t ih =>
    simp only [List.foldl_cons]
    rw [ih]
    by_cases hq : q ∈ t
    · simp [hq]
    · by_cases hqh : q = h <;> simp [hq, hqh, dset]

/-- **C8** (counterexample): the position-master script initializes every
record column to Python `None` (not the empty string), and the
position-compensation script performs no initialization at all — after the
entry-level phase of an entry without a `Worker_group`, the `Position_ID`
column is absent from the row dict rather than bound to the empty string. -/
theorem c8_counterexample :
    PositionMaster.initRecord "Unit_Descriptor" = none
    ∧ (none : Option String) ≠ some ""
    ∧ PositionCompensation.buildWorkerGroupData none "2024-01-01" "Position_ID" = none := by
  refine ⟨rfl, by simp, rfl⟩

/-- **C8** (amended): every emitted data line carries the full declared
column set: the worktag-family parsers initialize every declared column to
the empty string before extraction, while the position-master parser
initializes every column to `None` (serialized as an empty field); each data
line is serialized strictly in declared column order, with an empty value
substituted for any column missing from the row mapping or bound to `None`. -/
theorem c8_amended (q k : String) (dataRow : PcRow) (i : Nat)
    (hk : k ∈ WorktagGrant.headers) :
    PositionMaster.initRecord q = none
    ∧ WorktagGrant.initRow k = some ""
    ∧ (PositionCompensation.serializeRow dataRow).length
        = PositionCompensation.headers.length
    ∧ (PositionCompensation.serializeRow dataRow)[i]?
        = (PositionCompensation.headers[i]?).map (fun h => cellStr (dataRow h))
    ∧ cellStr none = ""
    ∧ cellStr (some none) = "" := by
  refine ⟨rfl, ?_, ?_, ?_, rfl, rfl⟩
  · unfold WorktagGrant.initRow
    rw [wg_initRow_foldl]
    simp [hk]
  · simp [PositionCompensation.serializeRow]
  · simp [PositionCompensation.serializeRow, List.getElem?_map]

/-- Witness for C8 at the concrete column `Code` and row index 0. -/
theorem c8_amended_witness :
    ("Code" ∈ WorktagGrant.headers) ∧ WorktagGrant.initRow "Code" = some "" :=
  ⟨by decide, (c8_amended "x" "Code" (fun _ => none) 0 (by decide)).2.1⟩

/-! ### C4 -/

theorem find?_append_first {α : Type} (p : α → Bool) (pre post : List α) (m : α)
    (hpre : ∀ x ∈ pre, p x = false) (hm : p m = true) :
    (pre ++ m :: post).find? p = some m := by
  induction pre with
  | nil => simpa using List.find?_cons_of_pos _ hm
  | cons a t ih =>
    rw [List.cons_append, List.find?_cons_of_neg, ih]
    · intro x hx
      exact hpre x (List.mem_cons_of_mem a hx)
    · simp [hpre a (List.mem_cons_self a t)]

/-- The two `ID` children used by the C4 counterexample and witness: one of
the requested type with empty (`None`) text, then one of the requested type
with text. -/
def pmIdEmpty : Xml :=
  Xml.elem (qname PositionMaster.NS "ID") [(qname PositionMaster.NS "type", "WID")] none []

def pmIdX : Xml :=
  Xml.elem (qname PositionMaster.NS "ID") [(qname PositionMaster.NS "type", "WID")] (some "X") []

def pmDupIdContainer : Xml :=
  Xml.elem (qname PositionMaster.NS "Unit") [] none [pmIdEmpty, pmIdX]

/-- **C4** (counterexample): on a container whose FIRST type-matching `ID`
child has empty text and whose second type-matching child has text `X`, the
position-master `get_typed_id_text` returns `X`, not the default — it does
not return "the text of the first match in document order, or the default
when the matching child has empty text". -/
theorem c4_counterexample :
    PositionMaster.get_typed_id_text (some pmDupIdContainer) RelPath.self "WID" none
      = some "X"
    ∧ some "X" ≠ (none : Option String) := by
  exact ⟨rfl, by simp⟩

/-- **C4** (amended): both helpers scan the container's direct `ID` children
and compare the namespace-qualified `type` attribute case-sensitively,
returning the default on a null container or when no child qualifies.  The
worktag-family version returns the text of the first type-matching child in
document order (default when that child's text is missing); the
position-master version additionally skips type-matching children whose text
is missing or empty and returns the text of the first type-matching child
with non-empty text. -/
theorem c4_amended (c : Xml) (v d t : String) (dp : Option String) (p : RelPath)
    (pre post : List Xml) (m : Xml) :
    WorktagGrant.get_typed_id_text none p v d = d
    ∧ PositionMaster.get_typed_id_text none p v dp = dp
    ∧ (findAllNS WorktagGrant.NS c "ID" = pre ++ m :: post →
        (∀ x ∈ pre, ¬ x.get (qname WorktagGrant.NS "type") = some v) →
        m.get (qname WorktagGrant.NS "type") = some v →
        WorktagGrant.get_typed_id_text (some c) RelPath.self v d = m.text.getD d)
    ∧ ((∀ x ∈ findAllNS WorktagGrant.NS c "ID",
          ¬ x.get (qname WorktagGrant.NS "type") = some v) →
        WorktagGrant.get_typed_id_text (some c) RelPath.self v d = d)
    ∧ (findAllNS PositionMaster.NS c "ID" = pre ++ m :: post →
        (∀ x ∈ pre, x.get (qname PositionMaster.NS "type") = some v →
          x.text.getD "" = "") →
        m.get (qname PositionMaster.NS "type") = some v →
        m.text = some t → t ≠ "" →
        PositionMaster.get_typed_id_text (some c) RelPath.self v dp = some t)
    ∧ ((∀ x ∈ findAllNS PositionMaster.NS c "ID",
          x.get (qname PositionMaster.NS "type") = some v → x.text.getD "" = "") →
        PositionMaster.get_typed_id_text (some c) RelPath.self v dp = dp) := by
  refine ⟨rfl, rfl, ?_, ?_, ?_, ?_⟩
  · intro hl hpre hm
    simp only [WorktagGrant.get_typed_id_text, findPath]
    rw [hl, find?_append_first _ pre post m ?_ ?_]
    · intro x hx
      simp [hpre x hx]
    · simp [hm]
  · intro hall
    simp only [WorktagGrant.get_typed_id_text, findPath]
    rw [List.find?_eq_none.mpr ?_]
    intro x hx
    simp [hall x hx]
  · intro hl hpre hm hmt hne
    simp only [PositionMaster.get_typed_id_text, findPath]
    rw [hl, find?_append_first _ pre post m ?_ ?_]
    · simpa using hmt
    · intro x hx
      by_cases hg : x.get (qname PositionMaster.NS "type") = some v
      · simp [hg, hpre x hx hg]
      · simp [hg]
    · simp [hm, hmt, hne]
  · intro hall
    simp only [PositionMaster.get_typed_id_text, findPath]
    rw [List.find?_eq_none.mpr ?_]
    intro x hx
    by_cases hg : x.get (qname PositionMaster.NS "type") = some v
    · simp [hg, hall x hx hg]
    · simp [hg]

/-- Witness for C4: the position-master helper, applied to the container of
the counterexample, returns the text of the second (first non-empty)
type-matching child. -/
theorem c4_amended_witness :
    PositionMaster.get_typed_id_text (some pmDupIdContainer) RelPath.self "WID"
      (some "dflt") = some "X" :=
  (c4_amended pmDupIdContainer "WID" "dflt" "X" (some "dflt") RelPath.self
    [pmIdEmpty] [] pmIdX).2.2.2.2.1 rfl
    (by intro x hx; simp only [List.mem_singleton] at hx; subst hx; intro _; rfl)
    (by rfl) rfl (by simp)

/-! ### C7 -/

namespace CostingDaily

/-- The seven entry-level (worker) cells of a costing row, in header order:
positions 0-6 of every row emitted for the entry. -/
def workerCells (reportEntry : Xml) : List String :=
  match findChildNS NS reportEntry "Worker" with
  | some w =>
    [findtext w "Position_ID" "", findtext w "Employee_ID" "",
     findtext w "Active_Status" "", findtext w "Company_ID" "",
     findtext w "CF-FormattedEffectiveDate" "", findtext w "FYStartDate" "",
     findtext w "FYEndDate" ""]
  | none => ["", "", "", "", "", "", ""]

/-- The eight expansion-owned cells of a costing row, in header order:
positions 7-14, functions of one `AllocationDetails` child only. -/
def allocCells (allocDetail : Xml) : List String :=
  [findtext allocDetail "CF-Ledger" "",
   (match findChildNS NS allocDetail "EarningType" with
    | some et => findtextDescTypedId et "Earning_Code" ""
    | none => ""),
   findtext allocDetail "CF-WorktagDriverCode-Combo" "",
   findtext allocDetail "CF-WorktagDriverCode" "",
   findtext allocDetail "CAllocation_StartDate" "",
   findtext allocDetail "Distribution_Percent" "",
   (match findChildNS NS allocDetail "Costing_Company" with
    | some cc => findtextDescTypedId cc "Company_Reference_ID" ""
    | none => ""),
   findtext allocDetail "WID" ""]

end CostingDaily

theorem costing_workerCells_length (e : Xml) :
    (CostingDaily.workerCells e).length = 7 := by
  cases h : findChildNS CostingDaily.NS e "Worker" <;>
    simp [CostingDaily.workerCells, h]

theorem costing_allocCells_length (a : Xml) :
    (CostingDaily.allocCells a).length = 8 := by
  simp [CostingDaily.allocCells]

/-- Each expansion row of a costing entry decomposes positionally into the
entry-level cells, the cells of its own `AllocationDetails` child, and the
provenance date. -/
theorem costing_row_eq (e a : Xml) (d : String) :
    CostingDaily.rowFromDict
        (CostingDaily.setAllocFields (CostingDaily.buildWorkerData e d) a)
      = CostingDaily.workerCells e ++ CostingDaily.allocCells a ++ [d] := by
  cases h1 : findChildNS CostingDaily.NS e "Worker" <;>
  cases h2 : findChildNS CostingDaily.NS a "EarningType" <;>
  cases h3 : findChildNS CostingDaily.NS a "Costing_Company" <;>
    simp [CostingDaily.rowFromDict, CostingDaily.headers, CostingDaily.buildWorkerData,
      CostingDaily.setAllocFields, CostingDaily.workerCells, CostingDaily.allocCells,
      h1, h2, h3, dset]

/-- **C7**: for an entry with N ≥ 1 expansion children, exactly N rows are
emitted; the i-th row is built from the i-th expansion child in document
order; all rows share the identical entry-level cells (positions 0-6) and
provenance cell (position 15) and differ only in the expansion-owned cells;
the same correspondence and non-expansion-column sharing holds in the
position-compensation parser. -/
theorem c7_expansion_rows (entry : Xml) (d : String)
    (h : (findAllNS CostingDaily.NS entry "AllocationDetails").isEmpty = false) :
    (CostingDaily.entryRows entry d).length
        = (findAllNS CostingDaily.NS entry "AllocationDetails").length
    ∧ (∀ i : Nat, (CostingDaily.entryRows entry d)[i]?
        = ((findAllNS CostingDaily.NS entry "AllocationDetails")[i]?).map
            (fun a => CostingDaily.workerCells entry ++ CostingDaily.allocCells a ++ [d]))
    ∧ (∀ i : Nat, ∀ row, (CostingDaily.entryRows entry d)[i]? = some row →
        row.take 7 = CostingDaily.workerCells entry ∧ row[15]? = some d)
    ∧ (∀ (entry2 : Xml) (d2 : String),
        (findAllNS PositionCompensation.NS entry2
            "Compensation_Plan_Assignments").isEmpty = false →
        ∀ i : Nat, (PositionCompensation.entryRows entry2 d2)[i]?
          = ((findAllNS PositionCompensation.NS entry2
                "Compensation_Plan_Assignments")[i]?).map
              (fun c => PositionCompensation.compRow
                  (PositionCompensation.buildWorkerGroupData
                    (findChildNS PositionCompensation.NS entry2 "Worker_group") d2) c))
    ∧ (∀ (base : PcRow) (c : Xml) (k : String),
        k ∉ ["Compensation_Element_Descriptor", "Compensation_Element_WID",
          "Compensation_Element_Compensation_Element_ID", "Annualized_Amount"] →
        PositionCompensation.compRow base c k = base k) := by
  have hfun : (fun a => CostingDaily.rowFromDict
        (CostingDaily.setAllocFields (CostingDaily.buildWorkerData entry d) a))
      = fun a => CostingDaily.workerCells entry ++ CostingDaily.allocCells a ++ [d] :=
    funext (fun a => costing_row_eq entry a d)
  have hrows : CostingDaily.entryRows entry d
      = (findAllNS CostingDaily.NS entry "AllocationDetails").map
          (fun a => CostingDaily.workerCells entry ++ CostingDaily.allocCells a ++ [d]) := by
    unfold CostingDaily.entryRows
    simp only [h, Bool.not_false, if_true]
    rw [hfun]
  refine ⟨?_, ?_, ?_, ?_, ?_⟩
  · rw [hrows, List.length_map]
  · intro i
    rw [hrows, List.getElem?_map]
  · intro i row hrow
    rw [hrows, List.getElem?_map] at hrow
    cases ha : (findAllNS CostingDaily.NS entry "AllocationDetails")[i]? with
    | none => rw [ha] at hrow; simp at hrow
    | some a =>
      rw [ha] at hrow
      have hrow2 : CostingDaily.workerCells entry ++ CostingDaily.allocCells a ++ [d]
          = row := by simpa using hrow
      obtain rfl := hrow2
      constructor
      · rw [List.append_assoc, List.take_left' (costing_workerCells_length entry)]
      · rw [List.getElem?_append_right]
        · simp [List.length_append, costing_workerCells_length, costing_allocCells_length]
        · simp [List.length_append, costing_workerCells_length, costing_allocCells_length]
  · intro entry2 d2 h2 i
    unfold PositionCompensation.entryRows
    simp only [h2, Bool.and_false, Bool.false_eq_true, if_false]
    rw [List.getElem?_map]
  · intro base c k hk
    simp only [List.mem_cons, List.mem_singleton, not_or] at hk
    obtain ⟨hk1, hk2, hk3, hk4⟩ := hk
    unfold PositionCompensation.compRow
    cases hce : findChildNS PositionCompensation.NS c "Compensation_Element" <;>
      simp [hce, dset, hk1, hk2, hk3, hk4]

/-- The concrete scenario of the spec: one entry, worker `P100`, two
allocation children with distribution percents 60 and 40. -/
def exWorker : Xml :=
  Xml.elem (qname CostingDaily.NS "Worker") [] none
    [Xml.elem (qname CostingDaily.NS "Position_ID") [] (some "P100") []]

def exAlloc1 : Xml :=
  Xml.elem (qname CostingDaily.NS "AllocationDetails") [] none
    [Xml.elem (qname CostingDaily.NS "Distribution_Percent") [] (some "60") []]

def exAlloc2 : Xml :=
  Xml.elem (qname CostingDaily.NS "AllocationDetails") [] none
    [Xml.elem (qname CostingDaily.NS "Distribution_Percent") [] (some "40") []]

def exEntry : Xml :=
  Xml.elem (qname CostingDaily.NS "Report_Entry") [] none
    [exWorker, exAlloc1, exAlloc2]

/-- Witness for C7 at the two-allocation entry above. -/
theorem c7_expansion_rows_witness :
    ((findAllNS CostingDaily.NS exEntry "AllocationDetails").isEmpty = false)
    ∧ ((CostingDaily.entryRows exEntry "2025-01-01").length
        = (findAllNS CostingDaily.NS exEntry "AllocationDetails").length
      ∧ (∀ i : Nat, (CostingDaily.entryRows exEntry "2025-01-01")[i]?
          = ((findAllNS CostingDaily.NS exEntry "AllocationDetails")[i]?).map
              (fun a => CostingDaily.workerCells exEntry ++ CostingDaily.allocCells a
                ++ ["2025-01-01"]))
      ∧ (∀ i : Nat, ∀ row, (CostingDaily.entryRows exEntry "2025-01-01")[i]? = some row →
          row.take 7 = CostingDaily.workerCells exEntry ∧ row[15]? = some "2025-01-01")
      ∧ (∀ (entry2 : Xml) (d2 : String),
          (findAllNS PositionCompensation.NS entry2
              "Compensation_Plan_Assignments").isEmpty = false →
          ∀ i : Nat, (PositionCompensation.entryRows entry2 d2)[i]?
            = ((findAllNS PositionCompensation.NS entry2
                  "Compensation_Plan_Assignments")[i]?).map
                (fun c => PositionCompensation.compRow
                    (PositionCompensation.buildWorkerGroupData
                      (findChildNS PositionCompensation.NS entry2 "Worker_group") d2) c))
      ∧ (∀ (base : PcRow) (c : Xml) (k : String),
          k ∉ ["Compensation_Element_Descriptor", "Compensation_Element_WID",
            "Compensation_Element_Compensation_Element_ID", "Annualized_Amount"] →
          PositionCompensation.compRow base c k = base k)) :=
  ⟨rfl, c7_expansion_rows exEntry "2025-01-01" rfl⟩

/-! ### C9 -/

namespace WorktagGrant

/-- The `Descriptor` attribute read at the top of the `Worktags` loop
(line 154). -/
def descriptorOf (worktagEl : Xml) : String :=
  get_attribute (some worktagEl) RelPath.self "Descriptor" ""

/-- The condition under which a `Worktags` child takes the `Fund:` branch of
lines 156-159 (non-empty descriptor with the prefix). -/
def isFundTag (w : Xml) : Bool :=
  descriptorOf w != "" && (descriptorOf w).startsWith "Fund:"

/-- The condition for the `Function:` elif branch (lines 160-164). -/
def isFunctionTag (w : Xml) : Bool :=
  descriptorOf w != "" && !(descriptorOf w).startsWith "Fund:"
    && (descriptorOf w).startsWith "Function:"

/-- The condition for the `Unit:` elif branch (lines 165-169). -/
def isUnitTag (w : Xml) : Bool :=
  descriptorOf w != "" && !(descriptorOf w).startsWith "Fund:"
    && !(descriptorOf w).startsWith "Function:"
    && (descriptorOf w).startsWith "Unit:"

/-- The condition for the `Cost Center:` elif branch (lines 170-174). -/
def isCostCenterTag (w : Xml) : Bool :=
  descriptorOf w != "" && !(descriptorOf w).startsWith "Fund:"
    && !(descriptorOf w).startsWith "Function:"
    && !(descriptorOf w).startsWith "Unit:"
    && (descriptorOf w).startsWith "Cost Center:"

def fundKeys : List String :=
  ["Worktag_Fund_Descriptor", "Worktag_Fund_WID", "Worktag_Fund_ID"]

def functionKeys : List String :=
  ["Worktag_Function_Descriptor", "Worktag_Function_WID",
   "Worktag_Function_Organization_Reference_ID",
   "Worktag_Function_Custom_Organization_Reference_ID"]

def unitKeys : List String :=
  ["Worktag_Unit_Descriptor", "Worktag_Unit_WID",
   "Worktag_Unit_Organization_Reference_ID",
   "Worktag_Unit_Custom_Organization_Reference_ID"]

def costCenterKeys : List String :=
  ["Worktag_Cost_Center_Descriptor", "Worktag_Cost_Center_WID",
   "Worktag_Cost_Center_Organization_Reference_ID",
   "Worktag_Cost_Center_Cost_Center_Reference_ID"]

/-- The value the `Fund:` branch stores at each Fund-group column. -/
def fundCell (w : Xml) (k : String) : String :=
  if k = "Worktag_Fund_Descriptor" then descriptorOf w
  else if k = "Worktag_Fund_WID" then get_typed_id_text (some w) RelPath.self "WID" ""
  else get_typed_id_text (some w) RelPath.self "Fund_ID" ""

/-- The value the `Function:` branch stores at each Function-group column. -/
def functionCell (w : Xml) (k : String) : String :=
  if k = "Worktag_Function_Descriptor" then descriptorOf w
  else if k = "Worktag_Function_WID" then get_typed_id_text (some w) RelPath.self "WID" ""
  else if k = "Worktag_Function_Organization_Reference_ID" then
    get_typed_id_text (some w) RelPath.self "Organization_Reference_ID" ""
  else get_typed_id_text (some w) RelPath.self "Custom_Organization_Reference_ID" ""

/-- The value the `Unit:` branch stores at each Unit-group column. -/
def unitCell (w : Xml) (k : String) : String :=
  if k = "Worktag_Unit_Descriptor" then descriptorOf w
  else if k = "Worktag_Unit_WID" then get_typed_id_text (some w) RelPath.self "WID" ""
  else if k = "Worktag_Unit_Organization_Reference_ID" then
    get_typed_id_text (some w) RelPath.self "Organization_Reference_ID" ""
  else get_typed_id_text (some w) RelPath.self "Custom_Organization_Reference_ID" ""

/-- The value the `Cost Center:` branch stores at each group column. -/
def costCenterCell (w : Xml) (k : String) : String :=
  if k = "Worktag_Cost_Center_Descriptor" then descriptorOf w
  else if k = "Worktag_Cost_Center_WID" then get_typed_id_text (some w) RelPath.self "WID" ""
  else if k = "Worktag_Cost_Center_Organization_Reference_ID" then
    get_typed_id_text (some w) RelPath.self "Organization_Reference_ID" ""
  else get_typed_id_text (some w) RelPath.self "Cost_Center_Reference_ID" ""

end WorktagGrant

/-- A left fold whose step writes a group's columns exactly when `pred`
holds leaves, at each group column, the value contributed by the LAST
matching element in document order (or the incoming value when none
matches). -/
theorem foldl_last_match_wins (step : StrRow → Xml → StrRow) (pred : Xml → Bool)
    (keys : List String) (cell : Xml → String → String)
    (hpos : ∀ r w k, k ∈ keys → pred w = true → step r w k = some (cell w k))
    (hneg : ∀ r w k, k ∈ keys → pred w = false → step r w k = r k) :
    ∀ (ws : List Xml) (r : StrRow) (k : String), k ∈ keys →
      (ws.foldl step r) k
        = (match (ws.filter pred).getLast? with
           | some w => some (cell w k)
           | none => r k) := by
  intro ws
  induction ws with
  | nil => intro r k _; simp
  | cons w t ih =>
    intro r k hk
    simp only [List.foldl_cons, List.filter_cons]
    cases hp : pred w
    · simp only [Bool.false_eq_true, if_false]
      rw [ih (step r w) k hk]
      cases hl : (t.filter pred).getLast?
      · simp only [hl, hneg r w k hk hp]
      · simp only [hl]
    · simp only [if_true]
      rw [ih (step r w) k hk]
      cases hl : (t.filter pred).getLast?
      · rw [List.getLast?_eq_none_iff.mp hl]
        simp only [hl, List.getLast?_singleton, hpos r w k hk hp]
      · rename_i w2
        have hne : t.filter pred ≠ [] := by
          intro hnil
          rw [hnil] at hl
          simp at hl
        cases hfp : t.filter pred with
        | nil => exact absurd hfp hne
        | cons x xs =>
          rw [hfp] at hl
          rw [List.getLast?_cons_cons, hl]

theorem worktagStep_fund_pos (r : StrRow) (w : Xml) (k : String)
    (hk : k ∈ WorktagGrant.fundKeys) (hp : WorktagGrant.isFundTag w = true) :
    WorktagGrant.worktagStep r w k = some (WorktagGrant.fundCell w k) := by
  fin_cases hk <;>
    (simp only [WorktagGrant.worktagStep]
     split_ifs <;>
       simp_all [WorktagGrant.isFundTag, WorktagGrant.descriptorOf,
         WorktagGrant.fundCell, dset])

theorem worktagStep_fund_neg (r : StrRow) (w : Xml) (k : String)
    (hk : k ∈ WorktagGrant.fundKeys) (hp : WorktagGrant.isFundTag w = false) :
    WorktagGrant.worktagStep r w k = r k := by
  fin_cases hk <;>
    (simp only [WorktagGrant.worktagStep]
     split_ifs <;>
       simp_all [WorktagGrant.isFundTag, WorktagGrant.descriptorOf, dset])

theorem worktagStep_function_pos (r : StrRow) (w : Xml) (k : String)
    (hk : k ∈ WorktagGrant.functionKeys) (hp : WorktagGrant.isFunctionTag w = true) :
    WorktagGrant.worktagStep r w k = some (WorktagGrant.functionCell w k) := by
  fin_cases hk <;>
    (simp only [WorktagGrant.worktagStep]
     split_ifs <;>
       simp_all [WorktagGrant.isFunctionTag, WorktagGrant.descriptorOf,
         WorktagGrant.functionCell, dset])

theorem worktagStep_function_neg (r : StrRow) (w : Xml) (k : String)
    (hk : k ∈ WorktagGrant.functionKeys) (hp : WorktagGrant.isFunctionTag w = false) :
    WorktagGrant.worktagStep r w k = r k := by
  fin_cases hk <;>
    (simp only [WorktagGrant.worktagStep]
     split_ifs <;>
       simp_all [WorktagGrant.isFunctionTag, WorktagGrant.descriptorOf, dset])

theorem worktagStep_unit_pos (r : StrRow) (w : Xml) (k : String)
    (hk : k ∈ WorktagGrant.unitKeys) (hp : WorktagGrant.isUnitTag w = true) :
    WorktagGrant.worktagStep r w k = some (WorktagGrant.unitCell w k) := by
  fin_cases hk <;>
    (simp only [WorktagGrant.worktagStep]
     split_ifs <;>
       simp_all [WorktagGrant.isUnitTag, WorktagGrant.descriptorOf,
         WorktagGrant.unitCell, dset])

theorem worktagStep_unit_neg (r : StrRow) (w : Xml) (k : String)
    (hk : k ∈ WorktagGrant.unitKeys) (hp : WorktagGrant.isUnitTag w = false) :
    WorktagGrant.worktagStep r w k = r k := by
  fin_cases hk <;>
    (simp only [WorktagGrant.worktagStep]
     split_ifs <;>
       simp_all [WorktagGrant.isUnitTag, WorktagGrant.descriptorOf, dset])

theorem worktagStep_cc_pos (r : StrRow) (w : Xml) (k : String)
    (hk : k ∈ WorktagGrant.costCenterKeys) (hp : WorktagGrant.isCostCenterTag w = true) :
    WorktagGrant.worktagStep r w k = some (WorktagGrant.costCenterCell w k) := by
  fin_cases hk <;>
    (simp only [WorktagGrant.worktagStep]
     split_ifs <;>
       simp_all [WorktagGrant.isCostCenterTag, WorktagGrant.descriptorOf,
         WorktagGrant.costCenterCell, dset])

theorem worktagStep_cc_neg (r : StrRow) (w : Xml) (k : String)
    (hk : k ∈ WorktagGrant.costCenterKeys) (hp : WorktagGrant.isCostCenterTag w = false) :
    WorktagGrant.worktagStep r w k = r k := by
  fin_cases hk <;>
    (simp only [WorktagGrant.worktagStep]
     split_ifs <;>
       simp_all [WorktagGrant.isCostCenterTag, WorktagGrant.descriptorOf, dset])

/-- **C9**: each `Worktags` child of an entry is routed into one of the four
fixed column groups (Fund, Function, Unit, Cost Center) by the prefix of its
`Descriptor` attribute; when several children are routed to the same group,
the values of the LAST such child in document order are the ones kept; a
child with a missing/empty or unrecognized `Descriptor` contributes nothing
to the row. -/
theorem c9_worktag_routing (rowData : StrRow) (worktags : List Xml) (k : String) :
    (k ∈ WorktagGrant.fundKeys →
      WorktagGrant.processWorktags rowData worktags k
        = (match (worktags.filter WorktagGrant.isFundTag).getLast? with
           | some w => some (WorktagGrant.fundCell w k)
           | none => rowData k))
    ∧ (k ∈ WorktagGrant.functionKeys →
      WorktagGrant.processWorktags rowData worktags k
        = (match (worktags.filter WorktagGrant.isFunctionTag).getLast? with
           | some w => some (WorktagGrant.functionCell w k)
           | none => rowData k))
    ∧ (k ∈ WorktagGrant.unitKeys →
      WorktagGrant.processWorktags rowData worktags k
        = (match (worktags.filter WorktagGrant.isUnitTag).getLast? with
           | some w => some (WorktagGrant.unitCell w k)
           | none => rowData k))
    ∧ (k ∈ WorktagGrant.costCenterKeys →
      WorktagGrant.processWorktags rowData worktags k
        = (match (worktags.filter WorktagGrant.isCostCenterTag).getLast? with
           | some w => some (WorktagGrant.costCenterCell w k)
           | none => rowData k))
    ∧ (∀ w, WorktagGrant.isFundTag w = false → WorktagGrant.isFunctionTag w = false →
        WorktagGrant.isUnitTag w = false → WorktagGrant.isCostCenterTag w = false →
        WorktagGrant.worktagStep rowData w = rowData) := by
  refine ⟨?_, ?_, ?_, ?_, ?_⟩
  · intro hk
    exact foldl_last_match_wins WorktagGrant.worktagStep WorktagGrant.isFundTag
      WorktagGrant.fundKeys WorktagGrant.fundCell worktagStep_fund_pos
      worktagStep_fund_neg worktags rowData k hk
  · intro hk
    exact foldl_last_match_wins WorktagGrant.worktagStep WorktagGrant.isFunctionTag
      WorktagGrant.functionKeys WorktagGrant.functionCell worktagStep_function_pos
      worktagStep_function_neg worktags rowData k hk
  · intro hk
    exact foldl_last_match_wins WorktagGrant.worktagStep WorktagGrant.isUnitTag
      WorktagGrant.unitKeys WorktagGrant.unitCell worktagStep_unit_pos
      worktagStep_unit_neg worktags rowData k hk
  · intro hk
    exact foldl_last_match_wins WorktagGrant.worktagStep WorktagGrant.isCostCenterTag
      WorktagGrant.costCenterKeys WorktagGrant.costCenterCell worktagStep_cc_pos
      worktagStep_cc_neg worktags rowData k hk
  · intro w h1 h2 h3 h4
    simp only [WorktagGrant.worktagStep]
    split_ifs <;>
      simp_all [WorktagGrant.isFundTag, WorktagGrant.isFunctionTag,
        WorktagGrant.isUnitTag, WorktagGrant.isCostCenterTag, WorktagGrant.descriptorOf]

/-- Two Fund-prefixed `Worktags` children used by the C9 witness. -/
def wgFundTag1 : Xml :=
  Xml.elem (qname WorktagGrant.NS "Worktags")
    [(qname WorktagGrant.NS "Descriptor", "Fund: Alpha")] none []

def wgFundTag2 : Xml :=
  Xml.elem (qname WorktagGrant.NS "Worktags")
    [(qname WorktagGrant.NS "Descriptor", "Fund: Beta")] none []

/-- Witness for C9: with two Fund-prefixed children, the Fund descriptor
column holds the value contributed by the last one. -/
theorem c9_worktag_routing_witness :
    WorktagGrant.processWorktags (fun _ => none) [wgFundTag1, wgFundTag2]
        "Worktag_Fund_Descriptor"
      = (match ([wgFundTag1, wgFundTag2].filter WorktagGrant.isFundTag).getLast? with
         | some w => some (WorktagGrant.fundCell w "Worktag_Fund_Descriptor")
         | none => (fun (_ : String) => (none : Option String)) "Worktag_Fund_Descriptor") :=
  (c9_worktag_routing (fun _ => none) [wgFundTag1, wgFundTag2]
    "Worktag_Fund_Descriptor").1 (by decide)
